import Mathlib

/-!
Verification of the terminal git client: output parsers (src/git.rs),
the application state machine (src/ui/app.rs) and the event dispatch
loop (src/main.rs), shallowly embedded over `List Char` strings so that
Rust's byte-indexed slicing (which can panic off a char boundary) is
modelled exactly.  A `none` result of a partial function models a Rust
panic; `Except.error` models an `anyhow` error result.
-/

/-- Strings are modelled as lists of characters; byte positions are
recovered through `Char.utf8Size`, matching Rust's UTF-8 `str`. -/
abbrev Str := List Char

/-- Whitespace test used by `trim` / `split_whitespace` (ASCII subset). -/
def isWsChar (c : Char) : Bool :=
  c = ' ' || c = '\t' || c = '\n' || c = '\r'

/-- Rust `str::trim_start`. -/
def trimStart (s : Str) : Str := s.dropWhile isWsChar

/-- Rust `str::trim_end`. -/
def trimEnd (s : Str) : Str := (s.reverse.dropWhile isWsChar).reverse

/-- Rust `str::trim`. -/
def trim (s : Str) : Str := trimEnd (trimStart s)

/-- Total UTF-8 byte length of a string, as Rust `str::len`. -/
def byteLen : Str → Nat
  | [] => 0
  | c :: t => c.utf8Size + byteLen t

/-- Rust slicing `(&s[..k], &s[k..])` at byte offset `k`: `none` when `k`
exceeds the byte length or falls inside a multi-byte character (a Rust
panic), otherwise the two halves. -/
def byteSplit : Str → Nat → Option (Str × Str)
  | s, 0 => some ([], s)
  | [], _ + 1 => none
  | c :: t, k + 1 =>
    if c.utf8Size ≤ k + 1 then
      (byteSplit t (k + 1 - c.utf8Size)).map (fun p => (c :: p.1, p.2))
    else none

/-- Rust `str::is_char_boundary` at byte offset `k` (within the string or
exactly at its end). -/
def isBoundary : Str → Nat → Bool
  | _, 0 => true
  | [], _ + 1 => false
  | c :: t, k + 1 =>
    if c.utf8Size ≤ k + 1 then isBoundary t (k + 1 - c.utf8Size) else false

/-- Rust `str::split` on a single separator character. -/
def splitOnChar (sep : Char) : Str → List Str
  | [] => [[]]
  | c :: t =>
    let r := splitOnChar sep t
    if c = sep then [] :: r
    else
      match r with
      | h :: rt => (c :: h) :: rt
      | [] => [[c]]

/-- Rust `str::lines`: split on `'\n'`, drop a final empty piece, strip
one trailing `'\r'` from each line. -/
def rustLines (s : Str) : List Str :=
  let parts := splitOnChar '\n' s
  let parts := if parts.getLast? = some [] then parts.dropLast else parts
  parts.map (fun l => if l.getLast? = some '\r' then l.dropLast else l)

/-- Rust `str::splitn(2, sep)`. -/
def splitn2 (sep : Char) (s : Str) : List Str :=
  let pre := s.takeWhile (fun c => c ≠ sep)
  if pre.length = s.length then [s] else [pre, s.drop (pre.length + 1)]

/-- Rust `str::splitn(3, sep)`. -/
def splitn3 (sep : Char) (s : Str) : List Str :=
  let pre := s.takeWhile (fun c => c ≠ sep)
  if pre.length = s.length then [s]
  else pre :: splitn2 sep (s.drop (pre.length + 1))

/-- Rust `str::split_whitespace` (accumulator form). -/
def splitWsAux : Str → Str → List Str
  | [], acc => if acc = [] then [] else [acc.reverse]
  | c :: t, acc =>
    if isWsChar c then
      if acc = [] then splitWsAux t [] else acc.reverse :: splitWsAux t []
    else splitWsAux t (c :: acc)

/-- Rust `str::split_whitespace`. -/
def splitWs (s : Str) : List Str := splitWsAux s []

/-- Rust `str::strip_prefix` for a literal pattern. -/
def stripPref (pre s : Str) : Option Str :=
  if pre.isPrefixOf s then some (s.drop pre.length) else none

/-- Rust `str::trim_start_matches` for a literal pattern (removes the
leading pattern repeatedly). -/
def stripAllPref (pre : Str) (s : Str) : Str :=
  if h : pre ≠ [] ∧ pre.isPrefixOf s ∧ s ≠ [] then
    stripAllPref pre (s.drop pre.length)
  else s
termination_by s.length
decreasing_by
  simp only [List.length_drop]
  have h1 : 0 < pre.length := List.length_pos.mpr h.1
  have h2 : 0 < s.length := List.length_pos.mpr h.2.2
  omega

/-- Rust `str::contains` for a literal substring pattern. -/
def containsSub (n : Str) : Str → Bool
  | [] => n.isPrefixOf []
  | c :: t => if n.isPrefixOf (c :: t) then true else containsSub n t

/-- Rust `char::is_ascii_hexdigit`. -/
def isHexDig (c : Char) : Bool :=
  ('0' ≤ c && c ≤ '9') || ('a' ≤ c && c ≤ 'f') || ('A' ≤ c && c ≤ 'F')

/-- Character index of the first ASCII hex digit, if any (the scan in
`parse_log_output`'s `for (i, ch) in line.chars().enumerate()`). -/
def firstHexIdx : Str → Option Nat
  | [] => none
  | c :: t => if isHexDig c then some 0 else (firstHexIdx t).map (· + 1)

/-! ## Domain model (src/git.rs) -/

/-- `FileStatus` from src/git.rs. -/
inductive FileStatus
  | Modified
  | Added
  | Deleted
  | Renamed
  | Untracked
deriving DecidableEq, Repr

/-- `StatusFile` from src/git.rs. -/
structure StatusFile where
  path : Str
  status : FileStatus
  staged : Bool
deriving DecidableEq, Repr

/-- `StashEntry` from src/git.rs. -/
structure StashEntry where
  index : Nat
  branch : Str
  message : Str
deriving DecidableEq, Repr

/-- `Branch` from src/git.rs. -/
structure Branch where
  name : Str
  is_current : Bool
  is_remote : Bool
  commit_hash : Str
  commit_message : Str
deriving DecidableEq, Repr

/-- `Decoration` from src/git.rs. -/
inductive Decoration
  | Head
  | Branch (name : Str)
  | RemoteBranch (name : Str)
  | Tag (name : Str)
deriving DecidableEq, Repr

/-- `Commit` from src/git.rs. -/
structure Commit where
  graph : Str
  hash : Str
  message : Str
  decorations : List Decoration
deriving DecidableEq, Repr

/-- `FileDiff` from src/git.rs. -/
structure FileDiff where
  filename : Str
  diff_content : Str
deriving DecidableEq, Repr

/-- `CommitDiff` from src/git.rs. -/
structure CommitDiff where
  files : List FileDiff
deriving DecidableEq, Repr

/-- `SearchFilter` from src/git.rs. -/
inductive SearchFilter
  | Message (q : Str)
  | Author (q : Str)
deriving DecidableEq, Repr

/-! ## Log parser (src/git.rs `parse_log_output` and friends) -/

/-- `parse_decoration_string` from src/git.rs: decode one comma-separated
part of the decoration list (empty parts are dropped, `HEAD -> x` pushes
two decorations). -/
def decodeDecPart (part : Str) : List Decoration :=
  if part = [] then []
  else
    match stripPref ("HEAD -> ".data) part with
    | some rest =>
      let branch := trim rest
      Decoration.Head ::
        (if branch = [] then []
         else if branch.contains '/' then [Decoration.RemoteBranch branch]
         else [Decoration.Branch branch])
    | none =>
      if part = ("HEAD".data) then [Decoration.Head]
      else
        match stripPref ("tag: ".data) part with
        | some rest =>
          let tagName := trim rest
          if tagName = [] then [] else [Decoration.Tag tagName]
        | none =>
          if part.contains '/' then [Decoration.RemoteBranch part]
          else [Decoration.Branch part]

/-- `parse_decoration_string` from src/git.rs. -/
def parse_decoration_string (s : Str) : List Decoration :=
  ((splitOnChar ',' s).map trim).bind decodeDecPart

/-- `parse_decorations_and_message` from src/git.rs: the text after the
hash is either `(decorations) message` or just the message; with no
closing paren the whole text is the message. -/
def parse_decorations_and_message (text0 : Str) : List Decoration × Str :=
  let text := trim text0
  match text with
  | '(' :: afterParen =>
    if afterParen.contains ')' then
      let decStr := afterParen.takeWhile (fun c => c ≠ ')')
      let msg := trim ((afterParen.dropWhile (fun c => c ≠ ')')).drop 1)
      (parse_decoration_string decStr, msg)
    else ([], text)
  | _ => ([], text)

/-- The `hash_start` computation of `parse_log_output`: the char index of
the first ASCII hex digit, 0 when there is none. -/
def logHashStart (line : Str) : Nat := (firstHexIdx line).getD 0

/-- One iteration of `parse_log_output`'s loop: `some none` when the line
is skipped, `some (some c)` when it yields a commit, `none` when the
byte-slicing `line[..hash_start]` panics (the char index `hash_start` is
used as a byte offset). -/
def parseLogLine (line : Str) : Option (Option Commit) :=
  if line = [] then some none
  else
    let hashStart := logHashStart line
    if hashStart = 0 ∧ ¬ isHexDig (line.headD ' ') then some none
    else
      match byteSplit line hashStart with
      | none => none
      | some (graph, rest) =>
        match splitn2 ' ' rest with
        | [] => some none
        | hash :: restParts =>
          let restAfterHash := match restParts with | [] => ([] : Str) | r :: _ => r
          let dm := parse_decorations_and_message restAfterHash
          some (some ⟨graph, hash, dm.2, dm.1⟩)

/-- The loop of `parse_log_output` over all lines; `none` models a panic
on any line. -/
def parseLogLines : List Str → Option (List Commit)
  | [] => some []
  | l :: ls =>
    match parseLogLine l with
    | none => none
    | some none => parseLogLines ls
    | some (some c) => (parseLogLines ls).map (c :: ·)

/-- `parse_log_output` from src/git.rs. -/
def parse_log_output (s : Str) : Option (List Commit) :=
  parseLogLines (rustLines s)

/-! ## Commit diff parser (src/git.rs `parse_commit_diff`) -/

/-- A `diff --git` marker line. -/
def isMarkerL (l : Str) : Bool := ("diff --git".data).isPrefixOf l

/-- Filename extraction at a `diff --git a/file b/file` marker: the third
whitespace-separated token with leading `a/` repeatedly stripped,
`"unknown"` when missing. -/
def pcdName (l : Str) : Str :=
  stripAllPref ("a/".data) ((splitWs l).getD 2 ("unknown".data))

/-- Content filter of `parse_commit_diff`: metadata lines are excluded
from `diff_content`. -/
def pcdKeep (l : Str) : Bool :=
  !(isMarkerL l) && !(("index ".data).isPrefixOf l) &&
    !(("--- ".data).isPrefixOf l) && !(("+++ ".data).isPrefixOf l)

/-- The loop of `parse_commit_diff`: `files` accumulates finished file
diffs, `cur` is the file being built, `found` records whether a first
`diff --git` marker was seen. -/
def pcdLoop : List Str → List FileDiff → Option FileDiff → Bool → List FileDiff
  | [], files, cur, _ => files ++ cur.toList
  | l :: ls, files, cur, found =>
    if isMarkerL l then
      pcdLoop ls (files ++ cur.toList) (some ⟨pcdName l, []⟩) true
    else if found then
      pcdLoop ls files
        (match cur with
         | some fd =>
           if pcdKeep l then some ⟨fd.filename, fd.diff_content ++ l ++ ['\n']⟩
           else some fd
         | none => none) found
    else pcdLoop ls files cur found

/-- `parse_commit_diff` from src/git.rs: never fails; an input with no
`diff --git` marker yields the single sentinel `FileDiff`. -/
def parse_commit_diff (s : Str) : CommitDiff :=
  let files := pcdLoop (rustLines s) [] none false
  if files.isEmpty then
    ⟨[⟨"(no changes)".data, "No file changes in this commit.\n".data⟩]⟩
  else ⟨files⟩

/-! ## Status parser (src/git.rs `parse_status_output`) -/

/-- Staged-column decode (`M/A/D/R`, default Modified). -/
def decodeStaged (c : Char) : FileStatus :=
  match c with
  | 'M' => FileStatus.Modified
  | 'A' => FileStatus.Added
  | 'D' => FileStatus.Deleted
  | 'R' => FileStatus.Renamed
  | _ => FileStatus.Modified

/-- Unstaged-column decode (`M/D`, default Modified). -/
def decodeUnstaged (c : Char) : FileStatus :=
  match c with
  | 'M' => FileStatus.Modified
  | 'D' => FileStatus.Deleted
  | _ => FileStatus.Modified

/-- One line of `parse_status_output`: `none` models the panics of
`chars().nth(1).unwrap()` and of the byte slice `line[3..]`; a line
shorter than 3 bytes is skipped. -/
def statusLine (line : Str) : Option (List StatusFile) :=
  if byteLen line < 3 then some []
  else
    match line with
    | [] => none
    | [_] => none
    | c0 :: c1 :: _ =>
      match byteSplit line 3 with
      | none => none
      | some (_, path) =>
        let stagedPart :=
          if c0 ≠ ' ' ∧ c0 ≠ '?' then [StatusFile.mk path (decodeStaged c0) true] else []
        let unstagedPart :=
          if c1 ≠ ' ' then [StatusFile.mk path (decodeUnstaged c1) false] else []
        let untrackedPart :=
          if c0 = '?' ∧ c1 = '?' then [StatusFile.mk path FileStatus.Untracked false] else []
        some (stagedPart ++ unstagedPart ++ untrackedPart)

/-- The loop of `parse_status_output` over all lines. -/
def statusLines : List Str → Option (List StatusFile)
  | [] => some []
  | l :: ls =>
    match statusLine l with
    | none => none
    | some fs => (statusLines ls).map (fs ++ ·)

/-- `parse_status_output` from src/git.rs. -/
def parse_status_output (s : Str) : Option (List StatusFile) :=
  statusLines (rustLines s)

/-! ## Stash parser (src/git.rs `parse_stash_output`) -/

/-- Branch/message extraction from the text after the first colon:
`WIP on branch: msg`, `On branch: msg`, otherwise branch `"unknown"`. -/
def stashBranchMsg (rest : Str) : Str × Str :=
  match stripPref ("WIP on ".data) rest with
  | some r =>
    match splitn2 ':' r with
    | [b, m] => (trim b, trim m)
    | _ => ("unknown".data, r)
  | none =>
    match stripPref ("On ".data) rest with
    | some r =>
      match splitn2 ':' r with
      | [b, m] => (trim b, trim m)
      | _ => ("unknown".data, r)
    | none => ("unknown".data, rest)

/-- `parse_stash_output` from src/git.rs: the entry index is the position
in the output (the enumeration index), lines without a colon are skipped
but still consume an index. -/
def parse_stash_output (s : Str) : List StashEntry :=
  (rustLines s).enum.filterMap (fun p =>
    match splitn2 ':' p.2 with
    | [_, rest0] =>
      let bm := stashBranchMsg (trim rest0)
      some ⟨p.1, bm.1, bm.2⟩
    | _ => none)

/-! ## Branch parser (src/git.rs `parse_branch_output`) -/

/-- One line of `parse_branch_output`: empty / `HEAD ->` lines are
dropped; `none` models the panic of the byte slice `line[2..]`. -/
def branchLine (is_remote : Bool) (line : Str) : Option (List Branch) :=
  let trimmed := trim line
  if trimmed = [] ∨ containsSub ("HEAD ->".data) trimmed then some []
  else
    let is_current := line.headD ' ' = '*'
    match byteSplit line 2 with
    | none => none
    | some (_, lineContent) =>
      match splitn3 ' ' (trim lineContent) with
      | name :: hash :: rest =>
        some [⟨name, is_current, is_remote, hash,
               match rest with | m :: _ => m | [] => []⟩]
      | _ => some []

/-- The loop of `parse_branch_output` over all lines. -/
def branchLines (is_remote : Bool) : List Str → Option (List Branch)
  | [] => some []
  | l :: ls =>
    match branchLine is_remote l with
    | none => none
    | some bs => (branchLines is_remote ls).map (bs ++ ·)

/-- `parse_branch_output` from src/git.rs. -/
def parse_branch_output (s : Str) (is_remote : Bool) : Option (List Branch) :=
  branchLines is_remote (rustLines s)

/-! ## Repository Gateway (src/git.rs command wrappers)

Process invocation is the external collaborator `run(args) ->
(exit_status, stdout, stderr)`; a `RunResult` is its outcome, handed to
the wrapper that maps it to a parsed collection or a human-readable
message exactly as src/git.rs does. -/

/-- Outcome of one external subprocess invocation. -/
structure RunResult where
  success : Bool
  stdout : Str
  stderr : Str
deriving DecidableEq, Repr

/-- The conflict signature test shared by `cherry_pick`, `revert_commit`
and `merge_branch`: `error.contains("conflict") ||
error.contains("CONFLICT")`. -/
def conflictIn (e : Str) : Bool :=
  containsSub ("conflict".data) e || containsSub ("CONFLICT".data) e

/-- `get_commits` from src/git.rs (argument construction elided; the
filter only selects which command ran). `none` is a parser panic. -/
def get_commits (_filter : Option SearchFilter) (r : RunResult) :
    Option (Except Str (List Commit)) :=
  if r.success then (parse_log_output r.stdout).map (fun cs => Except.ok cs)
  else some (Except.error (("Git log failed: ".data) ++ r.stderr))

/-- `get_commit_diff` from src/git.rs. -/
def get_commit_diff (_hash : Str) (r : RunResult) : Except Str CommitDiff :=
  if r.success then Except.ok (parse_commit_diff r.stdout)
  else Except.error (("Git show failed: ".data) ++ r.stderr)

/-- `get_file_diff` from src/git.rs. -/
def get_file_diff (_path : Str) (_staged : Bool) (r : RunResult) : Except Str Str :=
  if r.success then
    if r.stdout = [] then Except.ok ("No changes to display".data)
    else Except.ok r.stdout
  else Except.error (("Diff failed: ".data) ++ r.stderr)

/-- `checkout_commit` from src/git.rs: the success message byte-slices
`&hash[..7]`; `none` is the panic on a hash shorter than 7 bytes (or
with no char boundary at byte 7). -/
def checkout_commit (hash : Str) (r : RunResult) : Option (Except Str Str) :=
  if r.success then
    match byteSplit hash 7 with
    | none => none
    | some (h7, _) =>
      some (Except.ok (("Checked out commit ".data) ++ h7 ++ (" (detached HEAD)".data)))
  else some (Except.error (("Checkout failed: ".data) ++ r.stderr))

/-- `create_branch` from src/git.rs. -/
def create_branch (branch_name : Str) (_hash : Str) (r : RunResult) : Except Str Str :=
  if r.success then
    Except.ok (("Created and checked out branch '".data) ++ branch_name ++ ("'".data))
  else Except.error (("Create branch failed: ".data) ++ r.stderr)

/-- `cherry_pick` from src/git.rs: a failing run whose stderr carries the
conflict signature yields an `Ok` guidance message; success byte-slices
`&hash[..7]`. -/
def cherry_pick (hash : Str) (r : RunResult) : Option (Except Str Str) :=
  if r.success then
    match byteSplit hash 7 with
    | none => none
    | some (h7, _) => some (Except.ok (("Cherry-picked commit ".data) ++ h7))
  else
    if conflictIn r.stderr then
      some (Except.ok ("Cherry-pick has conflicts. Resolve them and run 'git cherry-pick --continue'".data))
    else some (Except.error (("Cherry-pick failed: ".data) ++ r.stderr))

/-- `revert_commit` from src/git.rs. -/
def revert_commit (hash : Str) (r : RunResult) : Option (Except Str Str) :=
  if r.success then
    match byteSplit hash 7 with
    | none => none
    | some (h7, _) => some (Except.ok (("Reverted commit ".data) ++ h7))
  else
    if conflictIn r.stderr then
      some (Except.ok ("Revert has conflicts. Resolve them and run 'git revert --continue'".data))
    else some (Except.error (("Revert failed: ".data) ++ r.stderr))

/-- `get_status` from src/git.rs. -/
def get_status (r : RunResult) : Option (Except Str (List StatusFile)) :=
  if r.success then (parse_status_output r.stdout).map (fun fs => Except.ok fs)
  else some (Except.error (("Git status failed: ".data) ++ r.stderr))

/-- `get_stashes` from src/git.rs (the stash parser is total). -/
def get_stashes (r : RunResult) : Except Str (List StashEntry) :=
  if r.success then Except.ok (parse_stash_output r.stdout)
  else Except.error (("Git stash list failed: ".data) ++ r.stderr)

/-- `stage_file` from src/git.rs. -/
def stage_file (path : Str) (r : RunResult) : Except Str Str :=
  if r.success then Except.ok (("Staged: ".data) ++ path)
  else Except.error (("Staging failed: ".data) ++ r.stderr)

/-- `unstage_file` from src/git.rs. -/
def unstage_file (path : Str) (r : RunResult) : Except Str Str :=
  if r.success then Except.ok (("Unstaged: ".data) ++ path)
  else Except.error (("Unstaging failed: ".data) ++ r.stderr)

/-- `stage_all` from src/git.rs. -/
def stage_all (r : RunResult) : Except Str Str :=
  if r.success then Except.ok ("Staged all files".data)
  else Except.error (("Staging all failed: ".data) ++ r.stderr)

/-- `unstage_all` from src/git.rs. -/
def unstage_all (r : RunResult) : Except Str Str :=
  if r.success then Except.ok ("Unstaged all files".data)
  else Except.error (("Unstaging all failed: ".data) ++ r.stderr)

/-- `commit` from src/git.rs. -/
def commit (_message : Str) (r : RunResult) : Except Str Str :=
  if r.success then Except.ok ("Committed successfully".data)
  else Except.error (("Commit failed: ".data) ++ r.stderr)

/-- `create_stash` from src/git.rs. -/
def create_stash (message : Option Str) (_include_untracked : Bool) (r : RunResult) :
    Except Str Str :=
  if r.success then
    match message with
    | some m => Except.ok (("Created stash: ".data) ++ m)
    | none => Except.ok ("Created stash".data)
  else Except.error (("Stash creation failed: ".data) ++ r.stderr)

/-- `apply_stash` from src/git.rs. -/
def apply_stash (index : Nat) (r : RunResult) : Except Str Str :=
  if r.success then
    Except.ok (("Applied stash@\x7b".data) ++ (Nat.repr index).data ++ ("\x7d".data))
  else Except.error (("Stash apply failed: ".data) ++ r.stderr)

/-- `pop_stash` from src/git.rs. -/
def pop_stash (index : Nat) (r : RunResult) : Except Str Str :=
  if r.success then
    Except.ok (("Popped stash@\x7b".data) ++ (Nat.repr index).data ++ ("\x7d".data))
  else Except.error (("Stash pop failed: ".data) ++ r.stderr)

/-- `drop_stash` from src/git.rs. -/
def drop_stash (index : Nat) (r : RunResult) : Except Str Str :=
  if r.success then
    Except.ok (("Dropped stash@\x7b".data) ++ (Nat.repr index).data ++ ("\x7d".data))
  else Except.error (("Stash drop failed: ".data) ++ r.stderr)

/-- `get_branches` from src/git.rs: local listing first (its failure is
the function's failure), remote listing appended only when its run
succeeded. -/
def get_branches (rl rr : RunResult) : Option (Except Str (List Branch)) :=
  if rl.success then
    match parse_branch_output rl.stdout false with
    | none => none
    | some locals =>
      if rr.success then
        match parse_branch_output rr.stdout true with
        | none => none
        | some rems => some (Except.ok (locals ++ rems))
      else some (Except.ok locals)
  else some (Except.error (("Branch listing failed: ".data) ++ rl.stderr))

/-- `switch_branch` from src/git.rs: an `origin/` lead is stripped once. -/
def switch_branch (name : Str) (r : RunResult) : Except Str Str :=
  let branch_name := (stripPref ("origin/".data) name).getD name
  if r.success then
    Except.ok (("Switched to branch '".data) ++ branch_name ++ ("'".data))
  else Except.error (("Branch switch failed: ".data) ++ r.stderr)

/-- `delete_branch` from src/git.rs. -/
def delete_branch (name : Str) (_force : Bool) (r : RunResult) : Except Str Str :=
  if r.success then Except.ok (("Deleted branch '".data) ++ name ++ ("'".data))
  else Except.error (("Branch deletion failed: ".data) ++ r.stderr)

/-- `create_new_branch` from src/git.rs. -/
def create_new_branch (name : Str) (r : RunResult) : Except Str Str :=
  if r.success then Except.ok (("Created branch '".data) ++ name ++ ("'".data))
  else Except.error (("Branch creation failed: ".data) ++ r.stderr)

/-- `fetch` from src/git.rs. -/
def fetch (r : RunResult) : Except Str Str :=
  if r.success then Except.ok ("Fetched from remote".data)
  else Except.error (("Fetch failed: ".data) ++ r.stderr)

/-- `push` from src/git.rs. -/
def push (force : Bool) (r : RunResult) : Except Str Str :=
  if r.success then
    if force then Except.ok ("Force pushed to remote".data)
    else Except.ok ("Pushed to remote".data)
  else Except.error (("Push failed: ".data) ++ r.stderr)

/-- `get_last_commit_message` from src/git.rs. -/
def get_last_commit_message (r : RunResult) : Except Str Str :=
  if r.success then Except.ok (trim r.stdout)
  else Except.error (("Failed to get last commit message: ".data) ++ r.stderr)

/-- `commit_amend` from src/git.rs. -/
def commit_amend (_message : Str) (r : RunResult) : Except Str Str :=
  if r.success then Except.ok ("Amended commit successfully".data)
  else Except.error (("Amend failed: ".data) ++ r.stderr)

/-- `discard_file` from src/git.rs. -/
def discard_file (path : Str) (r : RunResult) : Except Str Str :=
  if r.success then Except.ok (("Discarded changes in ".data) ++ path)
  else Except.error (("Discard failed: ".data) ++ r.stderr)

/-- `merge_branch` from src/git.rs: the conflict signature downgrades the
failure to an `Ok` guidance message. -/
def merge_branch (name : Str) (r : RunResult) : Except Str Str :=
  if r.success then
    Except.ok (("Merged branch '".data) ++ name ++ ("' into current branch".data))
  else
    if conflictIn r.stderr then
      Except.ok ("Merge has conflicts. Resolve them and run 'git merge --continue'".data)
    else Except.error (("Merge failed: ".data) ++ r.stderr)

/-- `pull` from src/git.rs. -/
def pull (rebase : Bool) (r : RunResult) : Except Str Str :=
  if r.success then
    if rebase then Except.ok ("Pulled with rebase from remote".data)
    else Except.ok ("Pulled from remote".data)
  else Except.error (("Pull failed: ".data) ++ r.stderr)

deriving instance DecidableEq for Except

/-- The environment of one event-handling step: the outcome each git
subcommand (and the clipboard) would produce if invoked during the step. -/
structure Oracle where
  logRun : RunResult
  showRun : RunResult
  fileDiffRun : RunResult
  checkoutRun : RunResult
  createBranchRun : RunResult
  cherryRun : RunResult
  revertRun : RunResult
  statusRun : RunResult
  stashListRun : RunResult
  addRun : RunResult
  resetRun : RunResult
  addAllRun : RunResult
  resetAllRun : RunResult
  commitRun : RunResult
  stashPushRun : RunResult
  stashApplyRun : RunResult
  stashPopRun : RunResult
  stashDropRun : RunResult
  branchLocalRun : RunResult
  branchRemoteRun : RunResult
  switchRun : RunResult
  deleteBranchRun : RunResult
  newBranchRun : RunResult
  fetchRun : RunResult
  pushRun : RunResult
  lastMsgRun : RunResult
  amendRun : RunResult
  discardRun : RunResult
  mergeRun : RunResult
  pullRun : RunResult
  clipNew : Except Str Unit
  clipSet : Except Str Unit
deriving DecidableEq, Repr

/-! ## Application State (src/ui/app.rs)

`ListState` is modelled by its selection, an `Option Nat`.  Methods that
can hit a Rust panic (`self.commits[index]` indexing, hash slicing, a
parser panic inside a refresh) return `Option App`; the four methods
whose errors are propagated with `?` in src/main.rs return
`Option (Except Str App)`. -/

/-- `Panel` from src/ui/app.rs. -/
inductive Panel
  | Status
  | Log
  | Stash
  | Branches
deriving DecidableEq, Repr

/-- `MessageType` from src/ui/app.rs. -/
inductive MessageType
  | Success
  | Error
  | Info
deriving DecidableEq, Repr

/-- `App` from src/ui/app.rs (each `ListState` kept as its selection). -/
structure App where
  current_panel : Panel
  commits : List Commit
  list_state : Option Nat
  show_diff : Bool
  current_diff : Option CommitDiff
  diff_scroll : Nat
  file_list_state : Option Nat
  search_mode : Bool
  search_query : Str
  active_filter : Option SearchFilter
  tree_view_mode : Bool
  tree_file_selected : Bool
  status_files : List StatusFile
  status_list_state : Option Nat
  commit_message_mode : Bool
  commit_message_input : Str
  status_show_diff : Bool
  status_diff_content : Option Str
  status_diff_scroll : Nat
  stashes : List StashEntry
  stash_list_state : Option Nat
  stash_input_mode : Bool
  stash_message_input : Str
  branches : List Branch
  branch_list_state : Option Nat
  new_branch_input_mode : Bool
  new_branch_name_input : Str
  amend_mode : Bool
  help_visible : Bool
  should_quit : Bool
  branch_input_mode : Bool
  branch_name_input : Str
  status_message : Option Str
  status_message_type : MessageType
deriving DecidableEq, Repr

/-- `u16::saturating_add` on the scroll counters. -/
def u16SatAdd (a b : Nat) : Nat := min (a + b) 65535

/-- `set_status` from src/ui/app.rs. -/
def App.set_status (a : App) (message : Str) (t : MessageType) : App :=
  { a with status_message := some message, status_message_type := t }

/-- `clear_status` from src/ui/app.rs. -/
def App.clear_status (a : App) : App := { a with status_message := none }

/-- `next` from src/ui/app.rs (log cursor). -/
def App.next (a : App) : App :=
  if a.commits.isEmpty then a
  else
    let i :=
      match a.list_state with
      | some i => if i ≥ a.commits.length - 1 then 0 else i + 1
      | none => 0
    { a with list_state := some i, diff_scroll := 0 }

/-- `previous` from src/ui/app.rs (log cursor). -/
def App.previous (a : App) : App :=
  if a.commits.isEmpty then a
  else
    let i :=
      match a.list_state with
      | some i => if i = 0 then a.commits.length - 1 else i - 1
      | none => 0
    { a with list_state := some i, diff_scroll := 0 }

/-- `scroll_diff_up` from src/ui/app.rs. -/
def App.scroll_diff_up (a : App) : App := { a with diff_scroll := a.diff_scroll - 1 }

/-- `scroll_diff_down` from src/ui/app.rs. -/
def App.scroll_diff_down (a : App) : App :=
  { a with diff_scroll := u16SatAdd a.diff_scroll 1 }

/-- `scroll_diff_page_up` from src/ui/app.rs. -/
def App.scroll_diff_page_up (a : App) : App := { a with diff_scroll := a.diff_scroll - 10 }

/-- `scroll_diff_page_down` from src/ui/app.rs. -/
def App.scroll_diff_page_down (a : App) : App :=
  { a with diff_scroll := u16SatAdd a.diff_scroll 10 }

/-- `next_file` from src/ui/app.rs (diff file cursor). -/
def App.next_file (a : App) : App :=
  match a.current_diff with
  | some diff =>
    if diff.files.isEmpty then a
    else
      let i :=
        match a.file_list_state with
        | some i => if i ≥ diff.files.length - 1 then 0 else i + 1
        | none => 0
      { a with file_list_state := some i, diff_scroll := 0 }
  | none => a

/-- `previous_file` from src/ui/app.rs (diff file cursor). -/
def App.previous_file (a : App) : App :=
  match a.current_diff with
  | some diff =>
    if diff.files.isEmpty then a
    else
      let i :=
        match a.file_list_state with
        | some i => if i = 0 then diff.files.length - 1 else i - 1
        | none => 0
      { a with file_list_state := some i, diff_scroll := 0 }
  | none => a

/-- `toggle_diff` from src/ui/app.rs: its gateway error is propagated
with `?` in src/main.rs; `none` is the `self.commits[index]` panic. -/
def App.toggle_diff (o : Oracle) (a : App) : Option (Except Str App) :=
  if a.show_diff then
    some (Except.ok { a with show_diff := false, current_diff := none,
                             diff_scroll := 0, file_list_state := none })
  else
    match a.list_state with
    | none => some (Except.ok a)
    | some index =>
      match a.commits.get? index with
      | none => none
      | some c =>
        match get_commit_diff c.hash o.showRun with
        | Except.error e => some (Except.error e)
        | Except.ok diff =>
          some (Except.ok { a with
            current_diff := some diff, show_diff := true, diff_scroll := 0,
            file_list_state := if diff.files.isEmpty then none else some 0 })

/-- `quit` from src/ui/app.rs. -/
def App.quit (a : App) : App :=
  if a.show_diff then
    { a with show_diff := false, current_diff := none, diff_scroll := 0,
             file_list_state := none }
  else { a with should_quit := true }

/-- `enter_search_mode` from src/ui/app.rs. -/
def App.enter_search_mode (a : App) : App :=
  { a with search_mode := true, search_query := [] }

/-- `exit_search_mode` from src/ui/app.rs. -/
def App.exit_search_mode (a : App) : App := { a with search_mode := false }

/-- `add_search_char` from src/ui/app.rs. -/
def App.add_search_char (a : App) (c : Char) : App :=
  { a with search_query := a.search_query ++ [c] }

/-- `delete_search_char` from src/ui/app.rs. -/
def App.delete_search_char (a : App) : App :=
  { a with search_query := a.search_query.dropLast }

/-- `execute_search` from src/ui/app.rs: builds the filter from the
query, re-fetches the commits (the `?` propagates a gateway failure) and
resets the log selection. -/
def App.execute_search (o : Oracle) (a : App) : Option (Except Str App) :=
  let a :=
    if a.search_query = [] then { a with active_filter := none }
    else if a.search_query.headD ' ' = '@' then
      { a with active_filter := some (SearchFilter.Author (a.search_query.drop 1)) }
    else { a with active_filter := some (SearchFilter.Message a.search_query) }
  match get_commits a.active_filter o.logRun with
  | none => none
  | some (Except.error e) => some (Except.error e)
  | some (Except.ok cs) =>
    some (Except.ok { a with
      commits := cs,
      list_state := if cs.isEmpty then none else some 0,
      search_mode := false })

/-- `clear_search` from src/ui/app.rs (also `?`-propagated). -/
def App.clear_search (o : Oracle) (a : App) : Option (Except Str App) :=
  let a := { a with active_filter := none, search_query := [] }
  match get_commits none o.logRun with
  | none => none
  | some (Except.error e) => some (Except.error e)
  | some (Except.ok cs) =>
    some (Except.ok { a with
      commits := cs,
      list_state := if cs.isEmpty then none else some 0 })

/-- `toggle_tree_view` from src/ui/app.rs (also `?`-propagated). -/
def App.toggle_tree_view (o : Oracle) (a : App) : Option (Except Str App) :=
  if a.tree_view_mode then
    some (Except.ok { a with tree_view_mode := false, tree_file_selected := false,
                             current_diff := none, file_list_state := none,
                             diff_scroll := 0 })
  else
    match a.list_state with
    | none => some (Except.ok a)
    | some index =>
      match a.commits.get? index with
      | none => none
      | some c =>
        match get_commit_diff c.hash o.showRun with
        | Except.error e => some (Except.error e)
        | Except.ok diff =>
          some (Except.ok { a with
            current_diff := some diff,
            file_list_state := if diff.files.isEmpty then none else some 0,
            tree_view_mode := true, tree_file_selected := false,
            diff_scroll := 0 })

/-- `next_tree_file` from src/ui/app.rs. -/
def App.next_tree_file (a : App) : App :=
  match a.current_diff with
  | some diff =>
    if diff.files.isEmpty then a
    else
      let i :=
        match a.file_list_state with
        | some i => if i ≥ diff.files.length - 1 then 0 else i + 1
        | none => 0
      { a with file_list_state := some i }
  | none => a

/-- `previous_tree_file` from src/ui/app.rs. -/
def App.previous_tree_file (a : App) : App :=
  match a.current_diff with
  | some diff =>
    if diff.files.isEmpty then a
    else
      let i :=
        match a.file_list_state with
        | some i => if i = 0 then diff.files.length - 1 else i - 1
        | none => 0
      { a with file_list_state := some i }
  | none => a

/-- `select_tree_file` from src/ui/app.rs. -/
def App.select_tree_file (a : App) : App :=
  { a with tree_file_selected := !a.tree_file_selected, diff_scroll := 0 }

/-- `exit_tree_view` from src/ui/app.rs. -/
def App.exit_tree_view (a : App) : App :=
  if a.tree_file_selected then
    { a with tree_file_selected := false, diff_scroll := 0 }
  else
    { a with tree_view_mode := false, current_diff := none, file_list_state := none }

/-- `copy_commit_hash` from src/ui/app.rs (clipboard via the oracle);
`none` is the `self.commits[index]` panic. -/
def App.copy_commit_hash (o : Oracle) (a : App) : Option App :=
  match a.list_state with
  | none => some a
  | some index =>
    match a.commits.get? index with
    | none => none
    | some c =>
      match o.clipNew with
      | Except.error e =>
        some (a.set_status (("Failed to access clipboard: ".data) ++ e) MessageType.Error)
      | Except.ok _ =>
        match o.clipSet with
        | Except.error e =>
          some (a.set_status (("Failed to copy to clipboard: ".data) ++ e) MessageType.Error)
        | Except.ok _ =>
          some (a.set_status (("Copied hash: ".data) ++ c.hash) MessageType.Success)

/-- `checkout_selected_commit` from src/ui/app.rs. -/
def App.checkout_selected_commit (o : Oracle) (a : App) : Option App :=
  match a.list_state with
  | none => some a
  | some index =>
    match a.commits.get? index with
    | none => none
    | some c =>
      match checkout_commit c.hash o.checkoutRun with
      | none => none
      | some (Except.ok msg) => some (a.set_status msg MessageType.Success)
      | some (Except.error e) =>
        some (a.set_status (("Error: ".data) ++ e) MessageType.Error)

/-- `enter_branch_input_mode` from src/ui/app.rs. -/
def App.enter_branch_input_mode (a : App) : App :=
  { a with branch_input_mode := true, branch_name_input := [] }

/-- `exit_branch_input_mode` from src/ui/app.rs. -/
def App.exit_branch_input_mode (a : App) : App := { a with branch_input_mode := false }

/-- `add_branch_char` from src/ui/app.rs. -/
def App.add_branch_char (a : App) (c : Char) : App :=
  { a with branch_name_input := a.branch_name_input ++ [c] }

/-- `delete_branch_char` from src/ui/app.rs. -/
def App.delete_branch_char (a : App) : App :=
  { a with branch_name_input := a.branch_name_input.dropLast }

/-- `create_branch_from_commit` from src/ui/app.rs. -/
def App.create_branch_from_commit (o : Oracle) (a : App) : Option App :=
  if a.branch_name_input = [] then
    some { (a.set_status ("Branch name cannot be empty".data) MessageType.Error) with
           branch_input_mode := false }
  else
    match a.list_state with
    | none => some a
    | some index =>
      match a.commits.get? index with
      | none => none
      | some c =>
        match create_branch a.branch_name_input c.hash o.createBranchRun with
        | Except.ok msg =>
          some { (a.set_status msg MessageType.Success) with branch_input_mode := false }
        | Except.error e =>
          some { (a.set_status (("Error: ".data) ++ e) MessageType.Error) with
                 branch_input_mode := false }

/-- `cherry_pick_commit` from src/ui/app.rs: an `Ok` result (success or
conflict guidance) is shown with severity Info. -/
def App.cherry_pick_commit (o : Oracle) (a : App) : Option App :=
  match a.list_state with
  | none => some a
  | some index =>
    match a.commits.get? index with
    | none => none
    | some c =>
      match cherry_pick c.hash o.cherryRun with
      | none => none
      | some (Except.ok msg) => some (a.set_status msg MessageType.Info)
      | some (Except.error e) =>
        some (a.set_status (("Error: ".data) ++ e) MessageType.Error)

/-- `revert_selected_commit` from src/ui/app.rs. -/
def App.revert_selected_commit (o : Oracle) (a : App) : Option App :=
  match a.list_state with
  | none => some a
  | some index =>
    match a.commits.get? index with
    | none => none
    | some c =>
      match revert_commit c.hash o.revertRun with
      | none => none
      | some (Except.ok msg) => some (a.set_status msg MessageType.Info)
      | some (Except.error e) =>
        some (a.set_status (("Error: ".data) ++ e) MessageType.Error)

/-- `switch_to_panel` from src/ui/app.rs. -/
def App.switch_to_panel (a : App) (p : Panel) : App := { a with current_panel := p }

/-- `refresh_status` from src/ui/app.rs. -/
def App.refresh_status (o : Oracle) (a : App) : Option App :=
  match get_status o.statusRun with
  | none => none
  | some (Except.ok files) =>
    some { a with status_files := files,
                  status_list_state := if files.isEmpty then none else some 0 }
  | some (Except.error e) =>
    some (a.set_status (("Failed to refresh status: ".data) ++ e) MessageType.Error)

/-- `refresh_stashes` from src/ui/app.rs (the stash parser is total). -/
def App.refresh_stashes (o : Oracle) (a : App) : App :=
  match get_stashes o.stashListRun with
  | Except.ok stashes =>
    { a with stashes := stashes,
             stash_list_state := if stashes.isEmpty then none else some 0 }
  | Except.error e =>
    a.set_status (("Failed to refresh stashes: ".data) ++ e) MessageType.Error

/-- `list_index_to_file_index` from src/ui/app.rs, with its counter loops
over the staged/unstaged partition written in closed form: the staged
section (when non-empty) occupies rows `0..=S` with the header at row 0,
the unstaged section (when non-empty) follows with its header first;
`file_idx` keeps counting across the two sections. -/
def list_index_to_file_index (files : List StatusFile) (li : Nat) : Option Nat :=
  let staged := files.filter (fun f => f.staged)
  let unstaged := files.filter (fun f => !f.staged)
  let S := staged.length
  let U := unstaged.length
  if !staged.isEmpty then
    if li = 0 then none
    else if li ≤ S then some (li - 1)
    else
      if !unstaged.isEmpty then
        if li = S + 1 then none
        else if li ≤ S + 1 + U then some (S + (li - (S + 1) - 1))
        else none
      else none
  else
    if !unstaged.isEmpty then
      if li = 0 then none
      else if li ≤ U then some (li - 1)
      else none
    else none

/-- `get_status_list_len` from src/ui/app.rs: rows including the
synthetic headers, 1 (the "No changes" row) when there are no files. -/
def get_status_list_len (files : List StatusFile) : Nat :=
  if files.isEmpty then 1
  else
    let staged := files.filter (fun f => f.staged)
    let unstaged := files.filter (fun f => !f.staged)
    (if !staged.isEmpty then 1 + staged.length else 0) +
      (if !unstaged.isEmpty then 1 + unstaged.length else 0)

/-- `next_status_file` from src/ui/app.rs (status cursor, headers
included in the row count). -/
def App.next_status_file (a : App) : App :=
  let listLen := get_status_list_len a.status_files
  if listLen = 0 then a
  else
    let i :=
      match a.status_list_state with
      | some i => if i ≥ listLen - 1 then 0 else i + 1
      | none => 0
    { a with status_list_state := some i }

/-- `previous_status_file` from src/ui/app.rs. -/
def App.previous_status_file (a : App) : App :=
  let listLen := get_status_list_len a.status_files
  if listLen = 0 then a
  else
    let i :=
      match a.status_list_state with
      | some i => if i = 0 then listLen - 1 else i - 1
      | none => 0
    { a with status_list_state := some i }

/-- `toggle_stage` from src/ui/app.rs. -/
def App.toggle_stage (o : Oracle) (a : App) : Option App :=
  match a.status_list_state with
  | none => some a
  | some li =>
    match list_index_to_file_index a.status_files li with
    | none => some a
    | some fi =>
      match a.status_files.get? fi with
      | none => some a
      | some f =>
        let result :=
          if f.staged then unstage_file f.path o.resetRun
          else stage_file f.path o.addRun
        match result with
        | Except.ok msg => App.refresh_status o (a.set_status msg MessageType.Success)
        | Except.error e =>
          some (a.set_status (("Error: ".data) ++ e) MessageType.Error)

/-- `stage_all_files` from src/ui/app.rs. -/
def App.stage_all_files (o : Oracle) (a : App) : Option App :=
  match stage_all o.addAllRun with
  | Except.ok msg => App.refresh_status o (a.set_status msg MessageType.Success)
  | Except.error e => some (a.set_status (("Error: ".data) ++ e) MessageType.Error)

/-- `unstage_all_files` from src/ui/app.rs. -/
def App.unstage_all_files (o : Oracle) (a : App) : Option App :=
  match unstage_all o.resetAllRun with
  | Except.ok msg => App.refresh_status o (a.set_status msg MessageType.Success)
  | Except.error e => some (a.set_status (("Error: ".data) ++ e) MessageType.Error)

/-- `enter_commit_message_mode` from src/ui/app.rs. -/
def App.enter_commit_message_mode (a : App) : App :=
  { a with commit_message_mode := true, commit_message_input := [] }

/-- `exit_commit_message_mode` from src/ui/app.rs (also leaves amend). -/
def App.exit_commit_message_mode (a : App) : App :=
  { a with commit_message_mode := false, amend_mode := false }

/-- `add_commit_char` from src/ui/app.rs. -/
def App.add_commit_char (a : App) (c : Char) : App :=
  { a with commit_message_input := a.commit_message_input ++ [c] }

/-- `delete_commit_char` from src/ui/app.rs. -/
def App.delete_commit_char (a : App) : App :=
  { a with commit_message_input := a.commit_message_input.dropLast }

/-- `execute_commit` from src/ui/app.rs: commit or amend; the mode is
exited on the empty-input, success and failure paths alike. -/
def App.execute_commit (o : Oracle) (a : App) : Option App :=
  if a.commit_message_input = [] then
    some { (a.set_status ("Commit message cannot be empty".data) MessageType.Error) with
           commit_message_mode := false, amend_mode := false }
  else
    let result :=
      if a.amend_mode then commit_amend a.commit_message_input o.amendRun
      else commit a.commit_message_input o.commitRun
    match result with
    | Except.ok msg =>
      App.refresh_status o
        { (a.set_status msg MessageType.Success) with
          commit_message_mode := false, amend_mode := false }
    | Except.error e =>
      some { (a.set_status (("Error: ".data) ++ e) MessageType.Error) with
             commit_message_mode := false, amend_mode := false }

/-- `enter_amend_mode` from src/ui/app.rs: preloads the last commit
message from the gateway; on gateway failure the mode is not entered. -/
def App.enter_amend_mode (o : Oracle) (a : App) : App :=
  match get_last_commit_message o.lastMsgRun with
  | Except.ok msg =>
    { a with amend_mode := true, commit_message_mode := true,
             commit_message_input := msg }
  | Except.error e => a.set_status (("Error: ".data) ++ e) MessageType.Error

/-- `discard_selected_file` from src/ui/app.rs. -/
def App.discard_selected_file (o : Oracle) (a : App) : Option App :=
  match a.status_list_state with
  | none => some a
  | some li =>
    match list_index_to_file_index a.status_files li with
    | none => some a
    | some fi =>
      match a.status_files.get? fi with
      | none => some a
      | some f =>
        if f.staged then
          some (a.set_status ("Cannot discard staged file. Unstage it first.".data)
                  MessageType.Error)
        else
          match discard_file f.path o.discardRun with
          | Except.ok msg => App.refresh_status o (a.set_status msg MessageType.Success)
          | Except.error e =>
            some (a.set_status (("Error: ".data) ++ e) MessageType.Error)

/-- `toggle_status_diff` from src/ui/app.rs. -/
def App.toggle_status_diff (o : Oracle) (a : App) : App :=
  let a := { a with status_show_diff := !a.status_show_diff }
  if a.status_show_diff then
    match a.status_list_state with
    | none => a
    | some li =>
      match list_index_to_file_index a.status_files li with
      | none => a
      | some fi =>
        match a.status_files.get? fi with
        | none => a
        | some f =>
          match get_file_diff f.path f.staged o.fileDiffRun with
          | Except.ok diff => { a with status_diff_content := some diff }
          | Except.error e =>
            { (a.set_status (("Failed to load diff: ".data) ++ e) MessageType.Error) with
              status_show_diff := false }
  else { a with status_diff_content := none, status_diff_scroll := 0 }

/-- `scroll_status_diff_up` from src/ui/app.rs. -/
def App.scroll_status_diff_up (a : App) : App :=
  if a.status_diff_scroll > 0 then
    { a with status_diff_scroll := a.status_diff_scroll - 1 }
  else a

/-- `scroll_status_diff_down` from src/ui/app.rs (an unchecked u16 `+=`,
wrapping in release builds). -/
def App.scroll_status_diff_down (a : App) : App :=
  { a with status_diff_scroll := (a.status_diff_scroll + 1) % 65536 }

/-- `scroll_status_diff_page_up` from src/ui/app.rs. -/
def App.scroll_status_diff_page_up (a : App) : App :=
  { a with status_diff_scroll := a.status_diff_scroll - 10 }

/-- `scroll_status_diff_page_down` from src/ui/app.rs. -/
def App.scroll_status_diff_page_down (a : App) : App :=
  { a with status_diff_scroll := u16SatAdd a.status_diff_scroll 10 }

/-- `next_stash` from src/ui/app.rs (stash cursor). -/
def App.next_stash (a : App) : App :=
  if a.stashes.isEmpty then a
  else
    let i :=
      match a.stash_list_state with
      | some i => if i ≥ a.stashes.length - 1 then 0 else i + 1
      | none => 0
    { a with stash_list_state := some i }

/-- `previous_stash` from src/ui/app.rs (stash cursor). -/
def App.previous_stash (a : App) : App :=
  if a.stashes.isEmpty then a
  else
    let i :=
      match a.stash_list_state with
      | some i => if i = 0 then a.stashes.length - 1 else i - 1
      | none => 0
    { a with stash_list_state := some i }

/-- `apply_selected_stash` from src/ui/app.rs. -/
def App.apply_selected_stash (o : Oracle) (a : App) : Option App :=
  match a.stash_list_state with
  | none => some a
  | some index =>
    match a.stashes.get? index with
    | none => some a
    | some stash =>
      match apply_stash stash.index o.stashApplyRun with
      | Except.ok msg => App.refresh_status o (a.set_status msg MessageType.Success)
      | Except.error e => some (a.set_status (("Error: ".data) ++ e) MessageType.Error)

/-- `pop_selected_stash` from src/ui/app.rs. -/
def App.pop_selected_stash (o : Oracle) (a : App) : Option App :=
  match a.stash_list_state with
  | none => some a
  | some index =>
    match a.stashes.get? index with
    | none => some a
    | some stash =>
      match pop_stash stash.index o.stashPopRun with
      | Except.ok msg =>
        (App.refresh_status o (a.set_status msg MessageType.Success)).map
          (App.refresh_stashes o)
      | Except.error e => some (a.set_status (("Error: ".data) ++ e) MessageType.Error)

/-- `drop_selected_stash` from src/ui/app.rs. -/
def App.drop_selected_stash (o : Oracle) (a : App) : Option App :=
  match a.stash_list_state with
  | none => some a
  | some index =>
    match a.stashes.get? index with
    | none => some a
    | some stash =>
      match drop_stash stash.index o.stashDropRun with
      | Except.ok msg =>
        some (App.refresh_stashes o (a.set_status msg MessageType.Success))
      | Except.error e => some (a.set_status (("Error: ".data) ++ e) MessageType.Error)

/-- `enter_stash_input_mode` from src/ui/app.rs. -/
def App.enter_stash_input_mode (a : App) : App :=
  { a with stash_input_mode := true, stash_message_input := [] }

/-- `exit_stash_input_mode` from src/ui/app.rs. -/
def App.exit_stash_input_mode (a : App) : App := { a with stash_input_mode := false }

/-- `add_stash_char` from src/ui/app.rs. -/
def App.add_stash_char (a : App) (c : Char) : App :=
  { a with stash_message_input := a.stash_message_input ++ [c] }

/-- `delete_stash_char` from src/ui/app.rs. -/
def App.delete_stash_char (a : App) : App :=
  { a with stash_message_input := a.stash_message_input.dropLast }

/-- `execute_create_stash` from src/ui/app.rs. -/
def App.execute_create_stash (o : Oracle) (a : App) : Option App :=
  let message := if a.stash_message_input = [] then none else some a.stash_message_input
  match create_stash message false o.stashPushRun with
  | Except.ok msg =>
    (App.refresh_status o
        { (a.set_status msg MessageType.Success) with stash_input_mode := false }).map
      (App.refresh_stashes o)
  | Except.error e =>
    some { (a.set_status (("Error: ".data) ++ e) MessageType.Error) with
           stash_input_mode := false }

/-- `refresh_branches` from src/ui/app.rs. -/
def App.refresh_branches (o : Oracle) (a : App) : Option App :=
  match get_branches o.branchLocalRun o.branchRemoteRun with
  | none => none
  | some (Except.ok branches) =>
    some { a with branches := branches,
                  branch_list_state := if branches.isEmpty then none else some 0 }
  | some (Except.error e) =>
    some (a.set_status (("Failed to refresh branches: ".data) ++ e) MessageType.Error)

/-- `next_branch` from src/ui/app.rs (branch cursor). -/
def App.next_branch (a : App) : App :=
  if a.branches.isEmpty then a
  else
    let i :=
      match a.branch_list_state with
      | some i => if i ≥ a.branches.length - 1 then 0 else i + 1
      | none => 0
    { a with branch_list_state := some i }

/-- `previous_branch` from src/ui/app.rs (branch cursor). -/
def App.previous_branch (a : App) : App :=
  if a.branches.isEmpty then a
  else
    let i :=
      match a.branch_list_state with
      | some i => if i = 0 then a.branches.length - 1 else i - 1
      | none => 0
    { a with branch_list_state := some i }

/-- `switch_to_selected_branch` from src/ui/app.rs. -/
def App.switch_to_selected_branch (o : Oracle) (a : App) : Option App :=
  match a.branch_list_state with
  | none => some a
  | some index =>
    match a.branches.get? index with
    | none => some a
    | some branch =>
      if branch.is_current then
        some (a.set_status ("Already on this branch".data) MessageType.Info)
      else
        match switch_branch branch.name o.switchRun with
        | Except.ok msg => App.refresh_branches o (a.set_status msg MessageType.Success)
        | Except.error e => some (a.set_status (("Error: ".data) ++ e) MessageType.Error)

/-- `delete_selected_branch` from src/ui/app.rs. -/
def App.delete_selected_branch (o : Oracle) (a : App) : Option App :=
  match a.branch_list_state with
  | none => some a
  | some index =>
    match a.branches.get? index with
    | none => some a
    | some branch =>
      if branch.is_current then
        some (a.set_status ("Cannot delete current branch".data) MessageType.Error)
      else if branch.is_remote then
        some (a.set_status ("Cannot delete remote branches from this view".data)
                MessageType.Error)
      else
        match delete_branch branch.name false o.deleteBranchRun with
        | Except.ok msg => App.refresh_branches o (a.set_status msg MessageType.Success)
        | Except.error e => some (a.set_status (("Error: ".data) ++ e) MessageType.Error)

/-- `merge_selected_branch` from src/ui/app.rs: any `Ok` message from
`merge_branch` (including the conflict guidance) is shown with severity
Success, then branches and status are refreshed. -/
def App.merge_selected_branch (o : Oracle) (a : App) : Option App :=
  match a.branch_list_state with
  | none => some a
  | some index =>
    match a.branches.get? index with
    | none => some a
    | some branch =>
      if branch.is_current then
        some (a.set_status ("Cannot merge a branch into itself".data) MessageType.Error)
      else
        match merge_branch branch.name o.mergeRun with
        | Except.ok msg =>
          match App.refresh_branches o (a.set_status msg MessageType.Success) with
          | none => none
          | some a2 => App.refresh_status o a2
        | Except.error e => some (a.set_status (("Error: ".data) ++ e) MessageType.Error)

/-- `enter_new_branch_mode` from src/ui/app.rs. -/
def App.enter_new_branch_mode (a : App) : App :=
  { a with new_branch_input_mode := true, new_branch_name_input := [] }

/-- `exit_new_branch_mode` from src/ui/app.rs. -/
def App.exit_new_branch_mode (a : App) : App := { a with new_branch_input_mode := false }

/-- `add_new_branch_char` from src/ui/app.rs. -/
def App.add_new_branch_char (a : App) (c : Char) : App :=
  { a with new_branch_name_input := a.new_branch_name_input ++ [c] }

/-- `delete_new_branch_char` from src/ui/app.rs. -/
def App.delete_new_branch_char (a : App) : App :=
  { a with new_branch_name_input := a.new_branch_name_input.dropLast }

/-- `execute_create_new_branch` from src/ui/app.rs. -/
def App.execute_create_new_branch (o : Oracle) (a : App) : Option App :=
  if a.new_branch_name_input = [] then
    some { (a.set_status ("Branch name cannot be empty".data) MessageType.Error) with
           new_branch_input_mode := false }
  else
    match create_new_branch a.new_branch_name_input o.newBranchRun with
    | Except.ok msg =>
      App.refresh_branches o
        { (a.set_status msg MessageType.Success) with new_branch_input_mode := false }
    | Except.error e =>
      some { (a.set_status (("Error: ".data) ++ e) MessageType.Error) with
             new_branch_input_mode := false }

/-- `fetch_from_remote` from src/ui/app.rs. -/
def App.fetch_from_remote (o : Oracle) (a : App) : Option App :=
  match fetch o.fetchRun with
  | Except.ok msg => App.refresh_branches o (a.set_status msg MessageType.Success)
  | Except.error e => some (a.set_status (("Error: ".data) ++ e) MessageType.Error)

/-- `push_to_remote` from src/ui/app.rs. -/
def App.push_to_remote (o : Oracle) (a : App) : App :=
  match push false o.pushRun with
  | Except.ok msg => a.set_status msg MessageType.Success
  | Except.error e => a.set_status (("Error: ".data) ++ e) MessageType.Error

/-- `pull_from_remote` from src/ui/app.rs. -/
def App.pull_from_remote (o : Oracle) (a : App) : Option App :=
  match pull false o.pullRun with
  | Except.ok msg =>
    match App.refresh_status o (a.set_status msg MessageType.Success) with
    | none => none
    | some a2 => App.refresh_branches o a2
  | Except.error e => some (a.set_status (("Error: ".data) ++ e) MessageType.Error)

/-! ## Event dispatch (src/main.rs `run_app`)

One key-press event is dispatched to exactly one handler.  The result is
`some (Except.ok a)` for a normally handled event, `some (Except.error e)`
when a `?`-propagated failure leaves `run_app` (terminating the UI
loop), and `none` for a Rust panic. -/

/-- The key codes src/main.rs dispatches on. -/
inductive Key
  | char (c : Char)
  | enter
  | esc
  | backspace
  | up
  | down
  | left
  | right
  | other
deriving DecidableEq, Repr

/-- Lift a panicking handler into the dispatch result. -/
def liftApp (r : Option App) : Option (Except Str App) :=
  r.map (fun a => Except.ok a)

/-- Lift a pure handler into the dispatch result. -/
def pureApp (a : App) : Option (Except Str App) := some (Except.ok a)

/-- Status-panel key dispatch of src/main.rs. -/
def statusPanelKey (o : Oracle) (a : App) (k : Key) : Option (Except Str App) :=
  match k with
  | Key.char ' ' => liftApp (App.toggle_stage o a)
  | Key.char 'a' => liftApp (App.stage_all_files o a)
  | Key.char 'u' => liftApp (App.unstage_all_files o a)
  | Key.char 'c' => pureApp (App.enter_commit_message_mode a)
  | Key.char 's' => pureApp (App.enter_stash_input_mode a)
  | Key.enter => pureApp (App.toggle_status_diff o a)
  | Key.down =>
    pureApp (if a.status_show_diff then App.scroll_status_diff_down a
             else App.next_status_file a)
  | Key.char 'j' =>
    pureApp (if a.status_show_diff then App.scroll_status_diff_down a
             else App.next_status_file a)
  | Key.up =>
    pureApp (if a.status_show_diff then App.scroll_status_diff_up a
             else App.previous_status_file a)
  | Key.char 'k' =>
    pureApp (if a.status_show_diff then App.scroll_status_diff_up a
             else App.previous_status_file a)
  | _ => pureApp a

/-- Log-panel key dispatch of src/main.rs. -/
def logPanelKey (o : Oracle) (a : App) (k : Key) : Option (Except Str App) :=
  match k with
  | Key.char 't' => App.toggle_tree_view o a
  | Key.char '/' => pureApp (App.enter_search_mode a)
  | Key.char 'y' => liftApp (App.copy_commit_hash o a)
  | Key.char 'c' => liftApp (App.checkout_selected_commit o a)
  | Key.char 'b' => pureApp (App.enter_branch_input_mode a)
  | Key.char 'p' => liftApp (App.cherry_pick_commit o a)
  | Key.char 'r' => liftApp (App.revert_selected_commit o a)
  | Key.char 'f' => liftApp (App.fetch_from_remote o a)
  | Key.char 'P' => pureApp (App.push_to_remote o a)
  | Key.char 'U' => liftApp (App.pull_from_remote o a)
  | Key.down =>
    pureApp (if a.show_diff then App.scroll_diff_down a else App.next a)
  | Key.char 'j' =>
    pureApp (if a.show_diff then App.scroll_diff_down a else App.next a)
  | Key.up =>
    pureApp (if a.show_diff then App.scroll_diff_up a else App.previous a)
  | Key.char 'k' =>
    pureApp (if a.show_diff then App.scroll_diff_up a else App.previous a)
  | Key.left => pureApp (if a.show_diff then App.previous_file a else a)
  | Key.char 'h' => pureApp (if a.show_diff then App.previous_file a else a)
  | Key.right => pureApp (if a.show_diff then App.next_file a else a)
  | Key.char 'l' => pureApp (if a.show_diff then App.next_file a else a)
  | Key.enter => App.toggle_diff o a
  | _ => pureApp a

/-- Stash-panel key dispatch of src/main.rs. -/
def stashPanelKey (o : Oracle) (a : App) (k : Key) : Option (Except Str App) :=
  match k with
  | Key.char 'a' => liftApp (App.apply_selected_stash o a)
  | Key.char 'p' => liftApp (App.pop_selected_stash o a)
  | Key.char 'd' => liftApp (App.drop_selected_stash o a)
  | Key.down => pureApp (App.next_stash a)
  | Key.char 'j' => pureApp (App.next_stash a)
  | Key.up => pureApp (App.previous_stash a)
  | Key.char 'k' => pureApp (App.previous_stash a)
  | _ => pureApp a

/-- Branches-panel key dispatch of src/main.rs. -/
def branchesPanelKey (o : Oracle) (a : App) (k : Key) : Option (Except Str App) :=
  match k with
  | Key.enter => liftApp (App.switch_to_selected_branch o a)
  | Key.char 'd' => liftApp (App.delete_selected_branch o a)
  | Key.char 'n' => pureApp (App.enter_new_branch_mode a)
  | Key.down => pureApp (App.next_branch a)
  | Key.char 'j' => pureApp (App.next_branch a)
  | Key.up => pureApp (App.previous_branch a)
  | Key.char 'k' => pureApp (App.previous_branch a)
  | _ => pureApp a

/-- Normal-mode key dispatch of src/main.rs: the global bindings first,
then the active panel's bindings. -/
def normalModeKey (o : Oracle) (a : App) (k : Key) : Option (Except Str App) :=
  match k with
  | Key.char 'q' => pureApp (App.quit a)
  | Key.char '1' => pureApp (a.switch_to_panel Panel.Status)
  | Key.char '2' => pureApp (a.switch_to_panel Panel.Log)
  | Key.char '3' => pureApp (a.switch_to_panel Panel.Stash)
  | Key.char '4' => pureApp (a.switch_to_panel Panel.Branches)
  | Key.esc =>
    if a.status_message.isSome then pureApp (App.clear_status a)
    else if a.active_filter.isSome then App.clear_search o a
    else pureApp (App.quit a)
  | _ =>
    match a.current_panel with
    | Panel.Status => statusPanelKey o a k
    | Panel.Log => logPanelKey o a k
    | Panel.Stash => stashPanelKey o a k
    | Panel.Branches => branchesPanelKey o a k

/-- The key-event handling step of `run_app` in src/main.rs: one pressed
key dispatched against the current mode flags. -/
def handleKey (o : Oracle) (a : App) (k : Key) : Option (Except Str App) :=
  if a.search_mode then
    match k with
    | Key.esc => pureApp (App.exit_search_mode a)
    | Key.enter => App.execute_search o a
    | Key.backspace => pureApp (App.delete_search_char a)
    | Key.char c => pureApp (App.add_search_char a c)
    | _ => pureApp a
  else if a.branch_input_mode then
    match k with
    | Key.esc => pureApp (App.exit_branch_input_mode a)
    | Key.enter => liftApp (App.create_branch_from_commit o a)
    | Key.backspace => pureApp (App.delete_branch_char a)
    | Key.char c => pureApp (App.add_branch_char a c)
    | _ => pureApp a
  else if a.commit_message_mode then
    match k with
    | Key.esc => pureApp (App.exit_commit_message_mode a)
    | Key.enter => liftApp (App.execute_commit o a)
    | Key.backspace => pureApp (App.delete_commit_char a)
    | Key.char c => pureApp (App.add_commit_char a c)
    | _ => pureApp a
  else if a.stash_input_mode then
    match k with
    | Key.esc => pureApp (App.exit_stash_input_mode a)
    | Key.enter => liftApp (App.execute_create_stash o a)
    | Key.backspace => pureApp (App.delete_stash_char a)
    | Key.char c => pureApp (App.add_stash_char a c)
    | _ => pureApp a
  else if a.new_branch_input_mode then
    match k with
    | Key.esc => pureApp (App.exit_new_branch_mode a)
    | Key.enter => liftApp (App.execute_create_new_branch o a)
    | Key.backspace => pureApp (App.delete_new_branch_char a)
    | Key.char c => pureApp (App.add_new_branch_char a c)
    | _ => pureApp a
  else if a.tree_view_mode then
    match k with
    | Key.char 'q' => pureApp (App.quit a)
    | Key.char 't' => App.toggle_tree_view o a
    | Key.esc => pureApp (App.exit_tree_view a)
    | Key.down =>
      pureApp (if a.tree_file_selected then App.scroll_diff_down a
               else App.next_tree_file a)
    | Key.char 'j' =>
      pureApp (if a.tree_file_selected then App.scroll_diff_down a
               else App.next_tree_file a)
    | Key.up =>
      pureApp (if a.tree_file_selected then App.scroll_diff_up a
               else App.previous_tree_file a)
    | Key.char 'k' =>
      pureApp (if a.tree_file_selected then App.scroll_diff_up a
               else App.previous_tree_file a)
    | Key.enter => pureApp (App.select_tree_file a)
    | _ => pureApp a
  else normalModeKey o a k

/-! ## Concrete fixtures used by witnesses and counterexamples -/

/-- A successful run with empty output. -/
def okRun : RunResult := ⟨true, [], []⟩

/-- A failing run with stderr `boom`. -/
def failRun : RunResult := ⟨false, [], "boom".data⟩

/-- An environment in which every subcommand succeeds with empty output. -/
def okOracle : Oracle :=
  ⟨okRun, okRun, okRun, okRun, okRun, okRun, okRun, okRun, okRun, okRun,
   okRun, okRun, okRun, okRun, okRun, okRun, okRun, okRun, okRun, okRun,
   okRun, okRun, okRun, okRun, okRun, okRun, okRun, okRun, okRun, okRun,
   Except.ok (), Except.ok ()⟩

/-- An environment in which every subcommand fails with stderr `boom`. -/
def failOracle : Oracle :=
  ⟨failRun, failRun, failRun, failRun, failRun, failRun, failRun, failRun,
   failRun, failRun, failRun, failRun, failRun, failRun, failRun, failRun,
   failRun, failRun, failRun, failRun, failRun, failRun, failRun, failRun,
   failRun, failRun, failRun, failRun, failRun, failRun,
   Except.error ("boom".data), Except.error ("boom".data)⟩

/-- A minimal application state: empty collections, Normal mode, Status
panel (the field values of `App::new` on empty data). -/
def baseApp : App :=
  { current_panel := Panel.Status
    commits := []
    list_state := none
    show_diff := false
    current_diff := none
    diff_scroll := 0
    file_list_state := none
    search_mode := false
    search_query := []
    active_filter := none
    tree_view_mode := false
    tree_file_selected := false
    status_files := []
    status_list_state := none
    commit_message_mode := false
    commit_message_input := []
    status_show_diff := false
    status_diff_content := none
    status_diff_scroll := 0
    stashes := []
    stash_list_state := none
    stash_input_mode := false
    stash_message_input := []
    branches := []
    branch_list_state := none
    new_branch_input_mode := false
    new_branch_name_input := []
    amend_mode := false
    help_visible := false
    should_quit := false
    branch_input_mode := false
    branch_name_input := []
    status_message := none
    status_message_type := MessageType.Info }

/-! ## C1 -/

/-- C1: the claim says a `?? ` porcelain line yields exactly one
Untracked/unstaged record; evaluating the status parser at
`?? bar.txt` shows the code emits two records for that line — a spurious
Modified/unstaged one (the unstaged column test excludes only `' '`,
not `'?'`) followed by the Untracked/unstaged one. -/
theorem C1_eval :
    parse_status_output ("?? bar.txt".data) =
      some [⟨"bar.txt".data, FileStatus.Modified, false⟩,
            ⟨"bar.txt".data, FileStatus.Untracked, false⟩] := by
  decide

/-! ## C3 -/

/-- C3: the claim says all five parsers return a collection for every
input, including multi-byte lines, without panicking.  Evaluating the
code shows three of them panic on short multi-byte lines: the status
parser on `éé` (the byte slice `line[3..]` falls inside the second
two-byte character), the log parser on `é7 x` (the char index of the
first hex digit is used as a byte offset into `é`), and the branch
parser on `*é b c` (the byte slice `line[2..]` falls inside `é`).  The
stash and commit-diff parsers are total by construction. -/
theorem C3_eval :
    parse_status_output ("éé".data) = none ∧
      parse_log_output ("é7 x".data) = none ∧
      parse_branch_output ("*é b c".data) false = none := by
  refine ⟨by decide, by decide, by decide⟩

/-! ## C9 -/

/-- C9: every selection cursor (commits, diff files, stashes, branches)
wraps: `next` from the last index selects 0, `previous` from 0 selects
the last index, and on an empty collection both are no-ops (the
selection, unset on an empty collection, stays unset). -/
theorem C9_cursor_wrap (a : App) :
    (a.commits = [] → App.next a = a ∧ App.previous a = a) ∧
    (a.commits ≠ [] → a.list_state = some (a.commits.length - 1) →
      (App.next a).list_state = some 0) ∧
    (a.commits ≠ [] → a.list_state = some 0 →
      (App.previous a).list_state = some (a.commits.length - 1)) ∧
    (a.current_diff = none → App.next_file a = a ∧ App.previous_file a = a) ∧
    (∀ d, a.current_diff = some d → d.files = [] →
      App.next_file a = a ∧ App.previous_file a = a) ∧
    (∀ d, a.current_diff = some d → d.files ≠ [] →
      a.file_list_state = some (d.files.length - 1) →
      (App.next_file a).file_list_state = some 0) ∧
    (∀ d, a.current_diff = some d → d.files ≠ [] → a.file_list_state = some 0 →
      (App.previous_file a).file_list_state = some (d.files.length - 1)) ∧
    (a.stashes = [] → App.next_stash a = a ∧ App.previous_stash a = a) ∧
    (a.stashes ≠ [] → a.stash_list_state = some (a.stashes.length - 1) →
      (App.next_stash a).stash_list_state = some 0) ∧
    (a.stashes ≠ [] → a.stash_list_state = some 0 →
      (App.previous_stash a).stash_list_state = some (a.stashes.length - 1)) ∧
    (a.branches = [] → App.next_branch a = a ∧ App.previous_branch a = a) ∧
    (a.branches ≠ [] → a.branch_list_state = some (a.branches.length - 1) →
      (App.next_branch a).branch_list_state = some 0) ∧
    (a.branches ≠ [] → a.branch_list_state = some 0 →
      (App.previous_branch a).branch_list_state = some (a.branches.length - 1)) := by
  refine ⟨?_, ?_, ?_, ?_, ?_, ?_, ?_, ?_, ?_, ?_, ?_, ?_, ?_⟩
  · intro h
    constructor <;> simp [App.next, App.previous, h]
  · intro h1 h2
    simp [App.next, List.isEmpty_iff, h1, h2]
  · intro h1 h2
    simp [App.previous, List.isEmpty_iff, h1, h2]
  · intro h
    constructor <;> simp [App.next_file, App.previous_file, h]
  · intro d hd hf
    constructor <;> simp [App.next_file, App.previous_file, hd, hf]
  · intro d hd hf hs
    simp [App.next_file, List.isEmpty_iff, hd, hf, hs]
  · intro d hd hf hs
    simp [App.previous_file, List.isEmpty_iff, hd, hf, hs]
  · intro h
    constructor <;> simp [App.next_stash, App.previous_stash, h]
  · intro h1 h2
    simp [App.next_stash, List.isEmpty_iff, h1, h2]
  · intro h1 h2
    simp [App.previous_stash, List.isEmpty_iff, h1, h2]
  · intro h
    constructor <;> simp [App.next_branch, App.previous_branch, h]
  · intro h1 h2
    simp [App.next_branch, List.isEmpty_iff, h1, h2]
  · intro h1 h2
    simp [App.previous_branch, List.isEmpty_iff, h1, h2]

/-- A one-commit, one-stash, one-branch state with every cursor at 0. -/
def wrapApp : App :=
  { baseApp with
    commits := [⟨[], "abc1234".data, "Initial commit".data, []⟩]
    list_state := some 0
    stashes := [⟨0, "main".data, "msg".data⟩]
    stash_list_state := some 0
    branches := [⟨"main".data, true, false, "abc1234".data, "msg".data⟩]
    branch_list_state := some 0 }

/-- C9 witness: on a one-element commit list with index 0 selected (which
is also the last index), `next` wraps the selection to 0 and `previous`
wraps it to the last index. -/
theorem C9_cursor_wrap_witness :
    (App.next wrapApp).list_state = some 0 ∧
      (App.previous wrapApp).list_state = some (wrapApp.commits.length - 1) := by
  exact ⟨(C9_cursor_wrap wrapApp).2.1 (by decide) (by decide),
         (C9_cursor_wrap wrapApp).2.2.1 (by decide) (by decide)⟩

/-! ## C6 -/

/-- A state whose search query already holds text while no input mode is
active (e.g. after a confirmed search, which keeps the query buffer). -/
def c6App : App := { baseApp with search_query := "abc".data }

/-- C6 counterexample: entering search mode and immediately canceling
does not restore the `search_query` field to its pre-entry value — entry
clears the buffer and cancel leaves it cleared, so a field other than
the mode flag changed. -/
theorem C6_cex :
    (App.exit_search_mode (App.enter_search_mode c6App)).search_query ≠
      c6App.search_query := by
  decide

/-- C6 amended: entering any input mode and immediately canceling with
Esc leaves every field unchanged except the mode flag(s) and that mode's
own text buffer: the buffer ends empty (entry clears it and cancel does
not restore it) — or, for amend, ends holding the fetched last commit
message; canceling commit-message input also clears the amend flag. -/
theorem C6_mode_roundtrip (a : App) (o : Oracle) :
    App.exit_search_mode (App.enter_search_mode a) =
      { a with search_mode := false, search_query := [] } ∧
    App.exit_branch_input_mode (App.enter_branch_input_mode a) =
      { a with branch_input_mode := false, branch_name_input := [] } ∧
    App.exit_commit_message_mode (App.enter_commit_message_mode a) =
      { a with commit_message_mode := false, amend_mode := false,
               commit_message_input := [] } ∧
    App.exit_stash_input_mode (App.enter_stash_input_mode a) =
      { a with stash_input_mode := false, stash_message_input := [] } ∧
    App.exit_new_branch_mode (App.enter_new_branch_mode a) =
      { a with new_branch_input_mode := false, new_branch_name_input := [] } ∧
    (o.lastMsgRun.success = true →
      App.exit_commit_message_mode (App.enter_amend_mode o a) =
        { a with commit_message_mode := false, amend_mode := false,
                 commit_message_input := trim o.lastMsgRun.stdout }) := by
  refine ⟨rfl, rfl, rfl, rfl, rfl, ?_⟩
  intro h
  simp [App.enter_amend_mode, App.exit_commit_message_mode, get_last_commit_message, h]

/-- C6 witness: the amend-mode round trip at a concrete state and a
succeeding gateway. -/
theorem C6_mode_roundtrip_witness :
    App.exit_commit_message_mode (App.enter_amend_mode okOracle c6App) =
      { c6App with commit_message_mode := false, amend_mode := false,
                   commit_message_input := trim okOracle.lastMsgRun.stdout } :=
  (C6_mode_roundtrip c6App okOracle).2.2.2.2.2 rfl

/-! ## C4 -/

/-- The staged/unstaged partition of the status list covers it. -/
theorem statusFilterSum (files : List StatusFile) :
    (files.filter (fun f => f.staged)).length +
      (files.filter (fun f => !f.staged)).length = files.length :=
  (List.length_eq_length_filter_add (l := files) (fun f => f.staged)).symm

/-- The status list (files plus synthetic headers) is never empty. -/
theorem statusListLen_pos (files : List StatusFile) :
    0 < get_status_list_len files := by
  have hsum := statusFilterSum files
  by_cases h : files = []
  · simp [get_status_list_len, h]
  · have h0 : 0 < files.length := List.length_pos.mpr h
    by_cases hs : files.filter (fun f => f.staged) = [] <;>
      by_cases hu : files.filter (fun f => !f.staged) = [] <;>
        simp [get_status_list_len, List.isEmpty_iff, h, hs, hu] at hsum ⊢ <;>
          omega

/-- A state with exactly one (staged) status file and no selection. -/
def c4App : App :=
  { baseApp with status_files := [⟨"a.txt".data, FileStatus.Modified, true⟩] }

/-- C4 counterexample: with one staged file the status list is
`[header, file]`; a single `next` selects row 0 — the synthetic header —
and the index-to-file mapping yields no `StatusFile` for that row, so
cursor movement does not skip header rows. -/
theorem C4_cex :
    (App.next_status_file c4App).status_list_state = some 0 ∧
      list_index_to_file_index c4App.status_files 0 = none := by
  refine ⟨by decide, by decide⟩

/-- C4 amended: header rows are not skipped by cursor movement — the
cursor can land on them — but they are non-actionable: whenever a group
is non-empty its header row maps to no file under
`list_index_to_file_index`; `next`/`previous` always select a row inside
the rendered list (given an in-range or unset starting selection), and
every row the mapping does resolve is a valid index into the
staged-then-unstaged partition of the status files. -/
theorem C4_status_headers (files : List StatusFile) (a : App) :
    (files.filter (fun f => f.staged) ≠ [] →
      list_index_to_file_index files 0 = none) ∧
    (files.filter (fun f => !f.staged) ≠ [] →
      list_index_to_file_index files
        (if files.filter (fun f => f.staged) = [] then 0
         else (files.filter (fun f => f.staged)).length + 1) = none) ∧
    (∃ i, (App.next_status_file a).status_list_state = some i ∧
      i < get_status_list_len a.status_files) ∧
    (∀ j, a.status_list_state = some j → j < get_status_list_len a.status_files →
      ∃ i, (App.previous_status_file a).status_list_state = some i ∧
        i < get_status_list_len a.status_files) ∧
    (∀ li fi, list_index_to_file_index files li = some fi → fi < files.length) := by
  have hsum := statusFilterSum files
  refine ⟨?_, ?_, ?_, ?_, ?_⟩
  · intro h
    simp [list_index_to_file_index, List.isEmpty_iff, h]
  · intro h
    by_cases hs : files.filter (fun f => f.staged) = [] <;>
      simp [list_index_to_file_index, List.isEmpty_iff, h, hs]
  · have hpos := statusListLen_pos a.status_files
    unfold App.next_status_file
    simp only [if_neg (Nat.pos_iff_ne_zero.mp hpos)]
    cases hsel : a.status_list_state with
    | none => exact ⟨0, rfl, hpos⟩
    | some i =>
      by_cases hge : i ≥ get_status_list_len a.status_files - 1
      · exact ⟨0, by simp [hge], hpos⟩
      · exact ⟨i + 1, by simp [hge], by omega⟩
  · intro j hj hlt
    have hpos := statusListLen_pos a.status_files
    unfold App.previous_status_file
    simp only [if_neg (Nat.pos_iff_ne_zero.mp hpos), hj]
    by_cases h0 : j = 0
    · exact ⟨get_status_list_len a.status_files - 1, by simp [h0], by omega⟩
    · exact ⟨j - 1, by simp [h0], by omega⟩
  · intro li fi h
    have hS : 0 ≤ (files.filter (fun f => f.staged)).length := Nat.zero_le _
    simp only [list_index_to_file_index] at h
    split at h
    · split at h
      · exact absurd h (by simp)
      · split at h
        · cases h
          have : li - 1 < (files.filter (fun f => f.staged)).length := by omega
          omega
        · split at h
          · split at h
            · exact absurd h (by simp)
            · split at h
              · cases h
                omega
              · exact absurd h (by simp)
          · exact absurd h (by simp)
    · split at h
      · split at h
        · exact absurd h (by simp)
        · split at h
          · cases h
            omega
          · exact absurd h (by simp)
      · exact absurd h (by simp)

/-- C4 witness: at the one-staged-file state, the staged header (row 0)
maps to no file, and a `next` from an unset selection lands in range. -/
theorem C4_status_headers_witness :
    list_index_to_file_index c4App.status_files 0 = none ∧
      ∃ i, (App.next_status_file c4App).status_list_state = some i ∧
        i < get_status_list_len c4App.status_files :=
  ⟨(C4_status_headers c4App.status_files c4App).1 (by decide),
   (C4_status_headers c4App.status_files c4App).2.2.1⟩

/-! ## C8 -/

/-- Number of `diff --git` markers in a commit-diff text. -/
def markerCount (s : Str) : Nat :=
  ((rustLines s).filter isMarkerL).length

/-- Each processed line adds to the final file count exactly when it is a
marker; `cur` holds a file under construction exactly when a marker has
been seen. -/
theorem pcdLoop_length (ls : List Str) :
    ∀ (files : List FileDiff) (cur : Option FileDiff) (found : Bool),
      cur.isSome = found →
      (pcdLoop ls files cur found).length =
        files.length + (if found then 1 else 0) + (ls.filter isMarkerL).length := by
  induction ls with
  | nil =>
    intro files cur found hinv
    cases cur <;> simp_all [pcdLoop]
  | cons l ls ih =>
    intro files cur found hinv
    by_cases hm : isMarkerL l
    · have := ih (files ++ cur.toList) (some ⟨pcdName l, []⟩) true rfl
      simp [pcdLoop, hm, this]
      cases cur <;> simp_all <;> omega
    · by_cases hf : found
      · subst hf
        cases cur with
        | none => simp_all
        | some fd =>
          by_cases hk : pcdKeep l
          · have := ih files (some ⟨fd.filename, fd.diff_content ++ l ++ ['\n']⟩) true rfl
            simp only [List.append_assoc] at this
            simp [pcdLoop, hm, hk, this]
          · have := ih files (some fd) true rfl
            simp [pcdLoop, hm, hk, this]
      · have hff : found = false := by simpa using hf
        subst hff
        have := ih files cur false hinv
        simp [pcdLoop, hm, this]

/-- C8: the commit-diff parser always returns a non-empty file list; with
no `diff --git` marker it returns exactly the sentinel `FileDiff`, and
otherwise exactly one `FileDiff` per marker line. -/
theorem C8_diff_files (s : Str) :
    (parse_commit_diff s).files ≠ [] ∧
    (markerCount s = 0 →
      (parse_commit_diff s).files =
        [⟨"(no changes)".data, "No file changes in this commit.\n".data⟩]) ∧
    (0 < markerCount s →
      (parse_commit_diff s).files.length = markerCount s) := by
  have hlen := pcdLoop_length (rustLines s) [] none false rfl
  simp only [List.length_nil, if_neg Bool.false_ne_true, Nat.zero_add] at hlen
  unfold parse_commit_diff markerCount at *
  refine ⟨?_, ?_, ?_⟩
  · by_cases h : (pcdLoop (rustLines s) [] none false).isEmpty <;> simp [h]
    simpa [List.isEmpty_iff] using h
  · intro h0
    have : pcdLoop (rustLines s) [] none false = [] := by
      have := hlen.trans h0
      exact List.length_eq_zero.mp this
    simp [this]
  · intro hpos
    have hne : ¬ (pcdLoop (rustLines s) [] none false).isEmpty := by
      simp only [List.isEmpty_iff]
      intro hcon
      rw [hcon] at hlen
      simp at hlen
      omega
    simp [hne, hlen]

/-- C8 witness: the empty input has no marker and yields exactly the
sentinel file diff. -/
theorem C8_diff_files_witness :
    (parse_commit_diff ("".data)).files =
      [⟨"(no changes)".data, "No file changes in this commit.\n".data⟩] :=
  (C8_diff_files ("".data)).2.1 (by decide)

/-! ## C10 -/

/-- A byte offset on a char boundary can be split at. -/
theorem byteSplit_isSome_of_isBoundary :
    ∀ (s : Str) (k : Nat), isBoundary s k = true → (byteSplit s k).isSome := by
  intro s
  induction s with
  | nil =>
    intro k h
    cases k with
    | zero => simp [byteSplit]
    | succ n => simp [isBoundary] at h
  | cons c t ih =>
    intro k h
    cases k with
    | zero => simp [byteSplit]
    | succ n =>
      simp only [isBoundary] at h
      by_cases hle : c.utf8Size ≤ n + 1
      · rw [if_pos hle] at h
        have hrec := ih _ h
        cases hbs : byteSplit t (n + 1 - c.utf8Size) with
        | none => rw [hbs] at hrec; simp at hrec
        | some pr => simp [byteSplit, hle, hbs]
      · rw [if_neg hle] at h
        cases h

/-- A byte offset beyond the byte length cannot be split at (the Rust
slice panics). -/
theorem byteSplit_none_of_lt :
    ∀ (s : Str) (k : Nat), byteLen s < k → byteSplit s k = none := by
  intro s
  induction s with
  | nil =>
    intro k h
    cases k with
    | zero => omega
    | succ n => rfl
  | cons c t ih =>
    intro k h
    cases k with
    | zero => omega
    | succ n =>
      simp only [byteLen] at h
      by_cases hle : c.utf8Size ≤ n + 1
      · have : byteLen t < n + 1 - c.utf8Size := by omega
        simp [byteSplit, hle, ih _ this]
      · simp [byteSplit, hle]

/-- C10: on a successful run, `checkout_commit`, `cherry_pick` and
`revert_commit` return a well-formed `Ok` message for every hash of byte
length at least 7 with a character boundary at byte 7 (the `&hash[..7]`
slice), and panic for every hash shorter than 7 bytes. -/
theorem C10_hash_slice (hash : Str) (r : RunResult) (hr : r.success = true) :
    (7 ≤ byteLen hash → isBoundary hash 7 = true →
      (∃ m, checkout_commit hash r = some (Except.ok m)) ∧
      (∃ m, cherry_pick hash r = some (Except.ok m)) ∧
      (∃ m, revert_commit hash r = some (Except.ok m))) ∧
    (byteLen hash < 7 →
      checkout_commit hash r = none ∧ cherry_pick hash r = none ∧
        revert_commit hash r = none) := by
  constructor
  · intro _ hb
    have hs := byteSplit_isSome_of_isBoundary hash 7 hb
    cases hbs : byteSplit hash 7 with
    | none => rw [hbs] at hs; simp at hs
    | some pr =>
      obtain ⟨h7, hrest⟩ := pr
      refine ⟨⟨("Checked out commit ".data) ++ h7 ++ (" (detached HEAD)".data), ?_⟩,
              ⟨("Cherry-picked commit ".data) ++ h7, ?_⟩,
              ⟨("Reverted commit ".data) ++ h7, ?_⟩⟩ <;>
        simp [checkout_commit, cherry_pick, revert_commit, hr, hbs]
  · intro hlt
    have hn := byteSplit_none_of_lt hash 7 hlt
    refine ⟨?_, ?_, ?_⟩ <;>
      simp [checkout_commit, cherry_pick, revert_commit, hr, hn]

/-- C10 witness: a 7-byte ASCII hash slices fine on a successful run,
and a 3-byte hash panics. -/
theorem C10_hash_slice_witness :
    (∃ m, checkout_commit ("abcdefg".data) okRun = some (Except.ok m)) ∧
      cherry_pick ("abc".data) okRun = none :=
  ⟨((C10_hash_slice ("abcdefg".data) okRun rfl).1 (by decide) (by decide)).1,
   ((C10_hash_slice ("abc".data) okRun rfl).2 (by decide)).2.1⟩

/-! ## C5 -/

/-- An environment where every command succeeds except `merge`, which
fails with a conflict-shaped stderr. -/
def c5Oracle : Oracle :=
  { okOracle with
    mergeRun := ⟨false, [], "CONFLICT (content): Merge conflict in a.txt".data⟩ }

/-- A state with one non-current branch selected. -/
def c5App : App :=
  { baseApp with
    branches := [⟨"dev".data, false, false, "h".data, "m".data⟩]
    branch_list_state := some 0 }

/-- C5 counterexample: a merge failure whose error text carries the
conflict signature is reported with severity Success, not Info —
`merge_selected_branch` passes every `Ok` message of `merge_branch` to
`set_status` with `MessageType::Success`. -/
theorem C5_cex :
    (App.merge_selected_branch c5Oracle c5App).map
        (fun x => (x.status_message, x.status_message_type)) =
      some (some ("Merge has conflicts. Resolve them and run 'git merge --continue'".data),
            MessageType.Success) ∧
      MessageType.Success ≠ MessageType.Info := by
  refine ⟨by decide, by decide⟩

/-- C5 amended: a conflict-shaped failure of cherry-pick or revert is
reported as the resolve-and-continue guidance with severity Info; the
same failure of merge is reported with the guidance text but severity
Success.  In all three cases the severity is non-Error. -/
theorem C5_conflict_reports :
    (∀ (o : Oracle) (a : App) i c, a.list_state = some i → a.commits.get? i = some c →
      o.cherryRun.success = false → conflictIn o.cherryRun.stderr = true →
      App.cherry_pick_commit o a =
        some (a.set_status
          ("Cherry-pick has conflicts. Resolve them and run 'git cherry-pick --continue'".data)
          MessageType.Info)) ∧
    (∀ (o : Oracle) (a : App) i c, a.list_state = some i → a.commits.get? i = some c →
      o.revertRun.success = false → conflictIn o.revertRun.stderr = true →
      App.revert_selected_commit o a =
        some (a.set_status
          ("Revert has conflicts. Resolve them and run 'git revert --continue'".data)
          MessageType.Info)) ∧
    (∀ (o : Oracle) (a : App) i b bs fs, a.branch_list_state = some i →
      a.branches.get? i = some b → b.is_current = false →
      o.mergeRun.success = false → conflictIn o.mergeRun.stderr = true →
      get_branches o.branchLocalRun o.branchRemoteRun = some (Except.ok bs) →
      get_status o.statusRun = some (Except.ok fs) →
      App.merge_selected_branch o a =
        some { a with
          status_message :=
            some ("Merge has conflicts. Resolve them and run 'git merge --continue'".data),
          status_message_type := MessageType.Success,
          branches := bs,
          branch_list_state := if bs.isEmpty then none else some 0,
          status_files := fs,
          status_list_state := if fs.isEmpty then none else some 0 }) := by
  refine ⟨?_, ?_, ?_⟩
  · intro o a i c hsel hget hfail hconf
    simp only [List.get?_eq_getElem?] at hget
    simp [App.cherry_pick_commit, hsel, hget, cherry_pick, hfail, hconf, App.set_status]
  · intro o a i c hsel hget hfail hconf
    simp only [List.get?_eq_getElem?] at hget
    simp [App.revert_selected_commit, hsel, hget, revert_commit, hfail, hconf, App.set_status]
  · intro o a i b bs fs hsel hget hcur hfail hconf hbs hfs
    simp only [List.get?_eq_getElem?] at hget
    simp [App.merge_selected_branch, hsel, hget, hcur, merge_branch, hfail, hconf,
      App.refresh_branches, hbs, App.refresh_status, hfs, App.set_status]

/-- An environment where every command succeeds except `cherry-pick`,
which fails with a conflict-shaped stderr. -/
def c5CherryOracle : Oracle :=
  { okOracle with cherryRun := ⟨false, [], "error: could not apply, CONFLICT".data⟩ }

/-- C5 witness: at a concrete state, the conflicting cherry-pick is
reported as Info guidance. -/
theorem C5_conflict_reports_witness :
    App.cherry_pick_commit c5CherryOracle wrapApp =
      some (wrapApp.set_status
        ("Cherry-pick has conflicts. Resolve them and run 'git cherry-pick --continue'".data)
        MessageType.Info) :=
  C5_conflict_reports.1 c5CherryOracle wrapApp 0
    ⟨[], "abc1234".data, "Initial commit".data, []⟩ rfl (by decide) rfl (by decide)

/-! ## C2 -/

/-- A state in search mode with a pending one-character query. -/
def c2App : App := { baseApp with search_mode := true, search_query := "x".data }

/-- C2 counterexample: confirming a search while the log fetch fails
makes the failure leave the event-handling step as an `Except.error`
(the `app.execute_search()?` in `run_app`), terminating the UI loop
instead of being reported as a status message. -/
theorem C2_cex :
    handleKey failOracle c2App Key.enter =
      some (Except.error ("Git log failed: boom".data)) := by
  decide

/-- C2 amended: every mutating or re-fetching action except confirming a
search, clearing the search filter, toggling the commit diff view and
toggling tree view maps a gateway failure to an Error status message and
leaves every other field unchanged (input modes being confirmed are
exited on the failure path as well); the four excepted actions propagate
the failure out of the event-handling step, as the four `handleKey`
conjuncts record.  No action is retried. -/
theorem C2_failure_reports :
    (∀ (o : Oracle) (a : App), a.search_mode = true →
      o.logRun.success = false →
      handleKey o a Key.enter =
        some (Except.error (("Git log failed: ".data) ++ o.logRun.stderr))) ∧
    (∀ (o : Oracle) (a : App), o.fetchRun.success = false →
      App.fetch_from_remote o a =
        some (a.set_status (("Error: Fetch failed: ".data) ++ o.fetchRun.stderr)
          MessageType.Error)) ∧
    (∀ (o : Oracle) (a : App), o.pushRun.success = false →
      App.push_to_remote o a =
        a.set_status (("Error: Push failed: ".data) ++ o.pushRun.stderr)
          MessageType.Error) ∧
    (∀ (o : Oracle) (a : App), o.pullRun.success = false →
      App.pull_from_remote o a =
        some (a.set_status (("Error: Pull failed: ".data) ++ o.pullRun.stderr)
          MessageType.Error)) ∧
    (∀ (o : Oracle) (a : App) i c, a.list_state = some i → a.commits.get? i = some c →
      o.checkoutRun.success = false →
      App.checkout_selected_commit o a =
        some (a.set_status (("Error: Checkout failed: ".data) ++ o.checkoutRun.stderr)
          MessageType.Error)) ∧
    (∀ (o : Oracle) (a : App) i c, a.list_state = some i → a.commits.get? i = some c →
      o.cherryRun.success = false → conflictIn o.cherryRun.stderr = false →
      App.cherry_pick_commit o a =
        some (a.set_status (("Error: Cherry-pick failed: ".data) ++ o.cherryRun.stderr)
          MessageType.Error)) ∧
    (∀ (o : Oracle) (a : App) i c, a.list_state = some i → a.commits.get? i = some c →
      o.revertRun.success = false → conflictIn o.revertRun.stderr = false →
      App.revert_selected_commit o a =
        some (a.set_status (("Error: Revert failed: ".data) ++ o.revertRun.stderr)
          MessageType.Error)) ∧
    (∀ (o : Oracle) (a : App) i c, a.branch_name_input ≠ [] → a.list_state = some i →
      a.commits.get? i = some c → o.createBranchRun.success = false →
      App.create_branch_from_commit o a =
        some { (a.set_status (("Error: Create branch failed: ".data) ++
                  o.createBranchRun.stderr) MessageType.Error) with
               branch_input_mode := false }) ∧
    (∀ (o : Oracle) (a : App), a.commit_message_input ≠ [] → a.amend_mode = false →
      o.commitRun.success = false →
      App.execute_commit o a =
        some { (a.set_status (("Error: Commit failed: ".data) ++ o.commitRun.stderr)
                  MessageType.Error) with
               commit_message_mode := false, amend_mode := false }) ∧
    (∀ (o : Oracle) (a : App), o.stashPushRun.success = false →
      App.execute_create_stash o a =
        some { (a.set_status (("Error: Stash creation failed: ".data) ++
                  o.stashPushRun.stderr) MessageType.Error) with
               stash_input_mode := false }) ∧
    (∀ (o : Oracle) (a : App), a.new_branch_name_input ≠ [] →
      o.newBranchRun.success = false →
      App.execute_create_new_branch o a =
        some { (a.set_status (("Error: Branch creation failed: ".data) ++
                  o.newBranchRun.stderr) MessageType.Error) with
               new_branch_input_mode := false }) ∧
    (∀ (o : Oracle) (a : App) li fi f, a.status_list_state = some li →
      list_index_to_file_index a.status_files li = some fi →
      a.status_files.get? fi = some f → f.staged = false →
      o.addRun.success = false →
      App.toggle_stage o a =
        some (a.set_status (("Error: Staging failed: ".data) ++ o.addRun.stderr)
          MessageType.Error)) ∧
    (∀ (o : Oracle) (a : App), o.addAllRun.success = false →
      App.stage_all_files o a =
        some (a.set_status (("Error: Staging all failed: ".data) ++ o.addAllRun.stderr)
          MessageType.Error)) ∧
    (∀ (o : Oracle) (a : App), o.resetAllRun.success = false →
      App.unstage_all_files o a =
        some (a.set_status (("Error: Unstaging all failed: ".data) ++
          o.resetAllRun.stderr) MessageType.Error)) ∧
    (∀ (o : Oracle) (a : App) li fi f, a.status_list_state = some li →
      list_index_to_file_index a.status_files li = some fi →
      a.status_files.get? fi = some f → f.staged = false →
      o.discardRun.success = false →
      App.discard_selected_file o a =
        some (a.set_status (("Error: Discard failed: ".data) ++ o.discardRun.stderr)
          MessageType.Error)) ∧
    (∀ (o : Oracle) (a : App) i st, a.stash_list_state = some i →
      a.stashes.get? i = some st → o.stashApplyRun.success = false →
      App.apply_selected_stash o a =
        some (a.set_status (("Error: Stash apply failed: ".data) ++
          o.stashApplyRun.stderr) MessageType.Error)) ∧
    (∀ (o : Oracle) (a : App) i st, a.stash_list_state = some i →
      a.stashes.get? i = some st → o.stashPopRun.success = false →
      App.pop_selected_stash o a =
        some (a.set_status (("Error: Stash pop failed: ".data) ++ o.stashPopRun.stderr)
          MessageType.Error)) ∧
    (∀ (o : Oracle) (a : App) i st, a.stash_list_state = some i →
      a.stashes.get? i = some st → o.stashDropRun.success = false →
      App.drop_selected_stash o a =
        some (a.set_status (("Error: Stash drop failed: ".data) ++
          o.stashDropRun.stderr) MessageType.Error)) ∧
    (∀ (o : Oracle) (a : App) i b, a.branch_list_state = some i →
      a.branches.get? i = some b → b.is_current = false →
      o.switchRun.success = false →
      App.switch_to_selected_branch o a =
        some (a.set_status (("Error: Branch switch failed: ".data) ++
          o.switchRun.stderr) MessageType.Error)) ∧
    (∀ (o : Oracle) (a : App) i b, a.branch_list_state = some i →
      a.branches.get? i = some b → b.is_current = false → b.is_remote = false →
      o.deleteBranchRun.success = false →
      App.delete_selected_branch o a =
        some (a.set_status (("Error: Branch deletion failed: ".data) ++
          o.deleteBranchRun.stderr) MessageType.Error)) ∧
    (∀ (o : Oracle) (a : App) i b, a.branch_list_state = some i →
      a.branches.get? i = some b → b.is_current = false →
      o.mergeRun.success = false → conflictIn o.mergeRun.stderr = false →
      App.merge_selected_branch o a =
        some (a.set_status (("Error: Merge failed: ".data) ++ o.mergeRun.stderr)
          MessageType.Error)) ∧
    (∀ (o : Oracle) (a : App) li fi f, a.status_list_state = some li →
      list_index_to_file_index a.status_files li = some fi →
      a.status_files.get? fi = some f → f.staged = true →
      o.resetRun.success = false →
      App.toggle_stage o a =
        some (a.set_status (("Error: Unstaging failed: ".data) ++ o.resetRun.stderr)
          MessageType.Error)) ∧
    (∀ (o : Oracle) (a : App), a.commit_message_input ≠ [] → a.amend_mode = true →
      o.amendRun.success = false →
      App.execute_commit o a =
        some { (a.set_status (("Error: Amend failed: ".data) ++ o.amendRun.stderr)
                  MessageType.Error) with
               commit_message_mode := false, amend_mode := false }) ∧
    (∀ (o : Oracle) (a : App) li fi f, a.status_show_diff = false →
      a.status_list_state = some li →
      list_index_to_file_index a.status_files li = some fi →
      a.status_files.get? fi = some f → o.fileDiffRun.success = false →
      App.toggle_status_diff o a =
        { a with
          status_message :=
            some (("Failed to load diff: Diff failed: ".data) ++ o.fileDiffRun.stderr),
          status_message_type := MessageType.Error,
          status_show_diff := false }) ∧
    (∀ (o : Oracle) (a : App) (flt : SearchFilter), a.search_mode = false →
      a.branch_input_mode = false → a.commit_message_mode = false →
      a.stash_input_mode = false → a.new_branch_input_mode = false →
      a.tree_view_mode = false → a.status_message = none →
      a.active_filter = some flt → o.logRun.success = false →
      handleKey o a Key.esc =
        some (Except.error (("Git log failed: ".data) ++ o.logRun.stderr))) ∧
    (∀ (o : Oracle) (a : App) i c, a.search_mode = false →
      a.branch_input_mode = false → a.commit_message_mode = false →
      a.stash_input_mode = false → a.new_branch_input_mode = false →
      a.tree_view_mode = false → a.current_panel = Panel.Log →
      a.show_diff = false → a.list_state = some i → a.commits.get? i = some c →
      o.showRun.success = false →
      handleKey o a Key.enter =
        some (Except.error (("Git show failed: ".data) ++ o.showRun.stderr))) ∧
    (∀ (o : Oracle) (a : App) i c, a.search_mode = false →
      a.branch_input_mode = false → a.commit_message_mode = false →
      a.stash_input_mode = false → a.new_branch_input_mode = false →
      a.tree_view_mode = false → a.current_panel = Panel.Log →
      a.list_state = some i → a.commits.get? i = some c →
      o.showRun.success = false →
      handleKey o a (Key.char 't') =
        some (Except.error (("Git show failed: ".data) ++ o.showRun.stderr))) := by
  refine ⟨?_, ?_, ?_, ?_, ?_, ?_, ?_, ?_, ?_, ?_, ?_, ?_, ?_, ?_, ?_, ?_, ?_, ?_,
          ?_, ?_, ?_, ?_, ?_, ?_, ?_, ?_, ?_⟩
  · intro o a hsm hfail
    delta handleKey
    simp [hsm, App.execute_search, get_commits, hfail]
  · intro o a hfail
    simp [App.fetch_from_remote, fetch, hfail, App.set_status]
  · intro o a hfail
    simp [App.push_to_remote, push, hfail, App.set_status]
  · intro o a hfail
    simp [App.pull_from_remote, pull, hfail, App.set_status]
  · intro o a i c hsel hget hfail
    simp only [List.get?_eq_getElem?] at hget
    simp [App.checkout_selected_commit, hsel, hget, checkout_commit, hfail,
      App.set_status]
  · intro o a i c hsel hget hfail hconf
    simp only [List.get?_eq_getElem?] at hget
    simp [App.cherry_pick_commit, hsel, hget, cherry_pick, hfail, hconf, App.set_status]
  · intro o a i c hsel hget hfail hconf
    simp only [List.get?_eq_getElem?] at hget
    simp [App.revert_selected_commit, hsel, hget, revert_commit, hfail, hconf,
      App.set_status]
  · intro o a i c hne hsel hget hfail
    simp only [List.get?_eq_getElem?] at hget
    simp [App.create_branch_from_commit, hne, hsel, hget, create_branch, hfail,
      App.set_status]
  · intro o a hne hamend hfail
    simp [App.execute_commit, hne, hamend, commit, hfail, App.set_status]
  · intro o a hfail
    simp [App.execute_create_stash, create_stash, hfail, App.set_status]
  · intro o a hne hfail
    simp [App.execute_create_new_branch, hne, create_new_branch, hfail, App.set_status]
  · intro o a li fi f hsel hmap hget hstg hfail
    simp only [List.get?_eq_getElem?] at hget
    simp [App.toggle_stage, hsel, hmap, hget, hstg, stage_file, hfail, App.set_status]
  · intro o a hfail
    simp [App.stage_all_files, stage_all, hfail, App.set_status]
  · intro o a hfail
    simp [App.unstage_all_files, unstage_all, hfail, App.set_status]
  · intro o a li fi f hsel hmap hget hstg hfail
    simp only [List.get?_eq_getElem?] at hget
    simp [App.discard_selected_file, hsel, hmap, hget, hstg, discard_file, hfail,
      App.set_status]
  · intro o a i st hsel hget hfail
    simp only [List.get?_eq_getElem?] at hget
    simp [App.apply_selected_stash, hsel, hget, apply_stash, hfail, App.set_status]
  · intro o a i st hsel hget hfail
    simp only [List.get?_eq_getElem?] at hget
    simp [App.pop_selected_stash, hsel, hget, pop_stash, hfail, App.set_status]
  · intro o a i st hsel hget hfail
    simp only [List.get?_eq_getElem?] at hget
    simp [App.drop_selected_stash, hsel, hget, drop_stash, hfail, App.set_status]
  · intro o a i b hsel hget hcur hfail
    simp only [List.get?_eq_getElem?] at hget
    simp [App.switch_to_selected_branch, hsel, hget, hcur, switch_branch, hfail,
      App.set_status]
  · intro o a i b hsel hget hcur hrem hfail
    simp only [List.get?_eq_getElem?] at hget
    simp [App.delete_selected_branch, hsel, hget, hcur, hrem, delete_branch, hfail,
      App.set_status]
  · intro o a i b hsel hget hcur hfail hconf
    simp only [List.get?_eq_getElem?] at hget
    simp [App.merge_selected_branch, hsel, hget, hcur, merge_branch, hfail, hconf,
      App.set_status]
  · intro o a li fi f hsel hmap hget hstg hfail
    simp only [List.get?_eq_getElem?] at hget
    simp [App.toggle_stage, hsel, hmap, hget, hstg, unstage_file, hfail, App.set_status]
  · intro o a hne hamend hfail
    simp [App.execute_commit, hne, hamend, commit_amend, hfail, App.set_status]
  · intro o a li fi f hsd hsel hmap hget hfail
    simp only [List.get?_eq_getElem?] at hget
    simp [App.toggle_status_diff, hsd, hsel, hmap, hget, get_file_diff, hfail,
      App.set_status]
  · intro o a flt hsm hbi hcm hsi hnb htv hmsg hflt hfail
    delta handleKey normalModeKey
    simp [hsm, hbi, hcm, hsi, hnb, htv, hmsg, hflt, App.clear_search, get_commits,
      hfail]
  · intro o a i c hsm hbi hcm hsi hnb htv hpanel hsd hsel hget hfail
    simp only [List.get?_eq_getElem?] at hget
    delta handleKey normalModeKey logPanelKey
    simp [hsm, hbi, hcm, hsi, hnb, htv, hpanel, App.toggle_diff, hsd, hsel, hget,
      get_commit_diff, hfail]
  · intro o a i c hsm hbi hcm hsi hnb htv hpanel hsel hget hfail
    simp only [List.get?_eq_getElem?] at hget
    have h1 : handleKey o a (Key.char 't') = normalModeKey o a (Key.char 't') := by
      delta handleKey
      simp [hsm, hbi, hcm, hsi, hnb, htv]
    have h2 : normalModeKey o a (Key.char 't') =
        (match a.current_panel with
         | Panel.Status => statusPanelKey o a (Key.char 't')
         | Panel.Log => logPanelKey o a (Key.char 't')
         | Panel.Stash => stashPanelKey o a (Key.char 't')
         | Panel.Branches => branchesPanelKey o a (Key.char 't')) := rfl
    have h3 : logPanelKey o a (Key.char 't') = App.toggle_tree_view o a := rfl
    rw [h1, h2, hpanel]
    rw [show (match Panel.Log with
         | Panel.Status => statusPanelKey o a (Key.char 't')
         | Panel.Log => logPanelKey o a (Key.char 't')
         | Panel.Stash => stashPanelKey o a (Key.char 't')
         | Panel.Branches => branchesPanelKey o a (Key.char 't')) =
        logPanelKey o a (Key.char 't') from rfl, h3]
    simp [App.toggle_tree_view, htv, hsel, hget, get_commit_diff, hfail]

/-- C2 witness: at a concrete state, a failing fetch is reported as an
Error status message with the rest of the state intact. -/
theorem C2_failure_reports_witness :
    App.fetch_from_remote failOracle baseApp =
      some (baseApp.set_status (("Error: Fetch failed: ".data) ++ failOracle.fetchRun.stderr)
        MessageType.Error) :=
  C2_failure_reports.2.1 failOracle baseApp rfl

/-! ## C7 -/

/-- Spec-side hash: "the token starting at the line's first hex digit
and extending up to the first following space". -/
def specHash (l : Str) : Str :=
  (l.dropWhile (fun c => !(isHexDig c))).takeWhile (fun c => c ≠ ' ')

/-- Spec-side qualification: a non-empty line containing at least one
ASCII hex digit. -/
def specQual (l : Str) : Bool := !l.isEmpty && l.any isHexDig

/-- Spec-side commit count of a log text. -/
def specCount (s : Str) : Nat := ((rustLines s).filter specQual).length

/-- Spec-side hash list of a log text. -/
def specHashes (s : Str) : List Str := ((rustLines s).filter specQual).map specHash

/-- A hex-free string has no first hex index. -/
theorem firstHexIdx_eq_none (l : Str) (h : l.any isHexDig = false) :
    firstHexIdx l = none := by
  induction l with
  | nil => rfl
  | cons c t ih =>
    simp only [List.any_cons, Bool.or_eq_false_iff] at h
    simp [firstHexIdx, h.1, ih h.2]

/-- A string with a hex digit has a first hex index. -/
theorem firstHexIdx_isSome (l : Str) (h : l.any isHexDig = true) :
    ∃ k, firstHexIdx l = some k := by
  induction l with
  | nil => simp at h
  | cons c t ih =>
    by_cases hc : isHexDig c
    · exact ⟨0, by simp [firstHexIdx, hc]⟩
    · simp only [List.any_cons, hc, Bool.false_or] at h
      obtain ⟨k, hk⟩ := ih h
      exact ⟨k + 1, by simp [firstHexIdx, hc, hk]⟩


/-- Unfolding of `firstHexIdx` at a non-hex head. -/
theorem firstHexIdx_cons_neg (c : Char) (t : Str) (hc : ¬ isHexDig c) :
    firstHexIdx (c :: t) = (firstHexIdx t).map (· + 1) := by
  simp [firstHexIdx, hc]

/-- The first hex index is inside the string. -/
theorem firstHexIdx_lt (l : Str) (k : Nat) (h : firstHexIdx l = some k) :
    k < l.length := by
  induction l generalizing k with
  | nil => simp [firstHexIdx] at h
  | cons c t ih =>
    by_cases hc : isHexDig c
    · have : k = 0 := by
        rw [show firstHexIdx (c :: t) = some 0 from by simp [firstHexIdx, hc]] at h
        exact (Option.some.inj h).symm
      simp [this]
    · rw [firstHexIdx_cons_neg c t hc] at h
      cases hft : firstHexIdx t with
      | none => rw [hft] at h; simp at h
      | some k0 =>
        rw [hft] at h
        simp only [Option.map_some', Option.some.injEq] at h
        have := ih k0 hft
        simp [← h]
        omega

/-- A first hex index of 0 means the head is a hex digit. -/
theorem firstHexIdx_zero (l : Str) (h : firstHexIdx l = some 0) :
    ∃ c t, l = c :: t ∧ isHexDig c = true := by
  cases l with
  | nil => simp [firstHexIdx] at h
  | cons c t =>
    by_cases hc : isHexDig c
    · exact ⟨c, t, rfl, hc⟩
    · exfalso
      rw [firstHexIdx_cons_neg c t hc] at h
      cases hft : firstHexIdx t <;> rw [hft] at h <;> simp at h

/-- Dropping up to the first hex index is dropping the hex-free lead. -/
theorem firstHexIdx_drop (l : Str) (k : Nat) (h : firstHexIdx l = some k) :
    l.drop k = l.dropWhile (fun c => !(isHexDig c)) := by
  induction l generalizing k with
  | nil => simp [firstHexIdx] at h
  | cons c t ih =>
    by_cases hc : isHexDig c
    · have : k = 0 := by
        rw [show firstHexIdx (c :: t) = some 0 from by simp [firstHexIdx, hc]] at h
        exact (Option.some.inj h).symm
      simp [this, List.dropWhile, hc]
    · rw [firstHexIdx_cons_neg c t hc] at h
      cases hft : firstHexIdx t with
      | none => rw [hft] at h; simp at h
      | some k0 =>
        rw [hft] at h
        simp only [Option.map_some', Option.some.injEq] at h
        have hb : isHexDig c = false := by simpa using hc
        simp [← h, List.dropWhile, hb, ih k0 hft]

/-- On a single-byte (ASCII) string an in-range byte offset splits into
`take`/`drop` at the same index. -/
theorem byteSplit_ascii (s : Str) :
    ∀ k, (∀ c ∈ s, c.utf8Size = 1) → k ≤ s.length →
      byteSplit s k = some (s.take k, s.drop k) := by
  induction s with
  | nil =>
    intro k _ hk
    have : k = 0 := by simpa using hk
    simp [this, byteSplit]
  | cons c t ih =>
    intro k hascii hk
    cases k with
    | zero => simp [byteSplit]
    | succ n =>
      have hc : c.utf8Size = 1 := hascii c (by simp)
      have ht : ∀ x ∈ t, x.utf8Size = 1 := fun x hx => hascii x (by simp [hx])
      have hlen : n ≤ t.length := by simp at hk; omega
      simp [byteSplit, hc, ih n ht hlen]

/-- A `takeWhile` of full length is the whole list. -/
theorem takeWhile_full (p : Char → Bool) :
    ∀ s : Str, (s.takeWhile p).length = s.length → s.takeWhile p = s := by
  intro s
  induction s with
  | nil => intro _; rfl
  | cons c t ih =>
    intro h
    by_cases hp : p c
    · rw [List.takeWhile_cons_of_pos hp] at h ⊢
      simp only [List.length_cons, Nat.add_right_cancel_iff] at h
      rw [ih h]
    · rw [List.takeWhile_cons_of_neg hp] at h
      simp at h

/-- The head of `splitn2` is the separator-free lead. -/
theorem splitn2_head (sep : Char) (s : Str) :
    ∃ t, splitn2 sep s = (s.takeWhile (fun c => c ≠ sep)) :: t := by
  unfold splitn2
  by_cases h : (s.takeWhile (fun c => c ≠ sep)).length = s.length
  · refine ⟨[], ?_⟩
    rw [if_pos h]
    rw [takeWhile_full _ s h]
  · exact ⟨[s.drop ((s.takeWhile (fun c => c ≠ sep)).length + 1)], by rw [if_neg h]⟩

/-- An empty line is skipped by the log parser. -/
theorem parseLogLine_nil : parseLogLine [] = some none := rfl

/-- A hex-free line is skipped by the log parser. -/
theorem parseLogLine_noHex (l : Str) (h : l.any isHexDig = false) :
    parseLogLine l = some none := by
  cases l with
  | nil => rfl
  | cons c t =>
    have hc : isHexDig c = false := by
      simp only [List.any_cons, Bool.or_eq_false_iff] at h
      exact h.1
    have hfi := firstHexIdx_eq_none _ h
    simp [parseLogLine, logHashStart, hfi, hc]

/-- If the computed hash start is 0 on a line with a first hex index,
the head character is a hex digit. -/
theorem logHashStart_zero_head (l : Str) (k : Nat) (hk : firstHexIdx l = some k)
    (h0 : logHashStart l = 0) : ∃ c t, l = c :: t ∧ isHexDig c = true := by
  have hk0 : k = 0 := by
    rw [logHashStart, hk] at h0
    simpa using h0
  exact firstHexIdx_zero l (hk0 ▸ hk)

/-- A qualifying line either panics or yields exactly one commit. -/
theorem parseLogLine_hex (l : Str) (hne : l ≠ []) (h : l.any isHexDig = true) :
    parseLogLine l = none ∨ ∃ c, parseLogLine l = some (some c) := by
  obtain ⟨k, hk⟩ := firstHexIdx_isSome l h
  cases hbs : byteSplit l (logHashStart l) with
  | none =>
    left
    simp [parseLogLine, hne, hbs]
    intro h0
    obtain ⟨c0, t0, rfl, hc0⟩ := logHashStart_zero_head _ k hk h0
    simpa using hc0
  | some pr =>
    right
    obtain ⟨t, hsp⟩ := splitn2_head ' ' pr.2
    cases t with
    | nil =>
      refine ⟨⟨pr.1, pr.2.takeWhile (fun c => c ≠ ' '),
              (parse_decorations_and_message []).2,
              (parse_decorations_and_message []).1⟩, ?_⟩
      simp [parseLogLine, hne, hbs, hsp]
      intro h0
      obtain ⟨c0, t0, rfl, hc0⟩ := logHashStart_zero_head _ k hk h0
      simpa using hc0
    | cons r rt =>
      refine ⟨⟨pr.1, pr.2.takeWhile (fun c => c ≠ ' '),
              (parse_decorations_and_message r).2,
              (parse_decorations_and_message r).1⟩, ?_⟩
      simp [parseLogLine, hne, hbs, hsp]
      intro h0
      obtain ⟨c0, t0, rfl, hc0⟩ := logHashStart_zero_head _ k hk h0
      simpa using hc0

/-- On an ASCII qualifying line the log parser succeeds and the commit's
hash is the spec-side token. -/
theorem parseLogLine_ascii (l : Str) (hascii : ∀ c ∈ l, c.utf8Size = 1)
    (hne : l ≠ []) (h : l.any isHexDig = true) :
    ∃ c, parseLogLine l = some (some c) ∧ c.hash = specHash l := by
  obtain ⟨k, hk⟩ := firstHexIdx_isSome l h
  have hstart : logHashStart l = k := by simp [logHashStart, hk]
  have hlt := firstHexIdx_lt l k hk
  have hbs : byteSplit l (logHashStart l) = some (l.take k, l.drop k) := by
    rw [hstart]; exact byteSplit_ascii l k hascii (by omega)
  obtain ⟨t, hsp⟩ := splitn2_head ' ' (l.drop k)
  have hdrop := firstHexIdx_drop l k hk
  have hhash : (l.drop k).takeWhile (fun c => c ≠ ' ') = specHash l := by
    rw [specHash, ← hdrop]
  cases t with
  | nil =>
    refine ⟨⟨l.take k, (l.drop k).takeWhile (fun c => c ≠ ' '),
            (parse_decorations_and_message []).2,
            (parse_decorations_and_message []).1⟩, ?_, hhash⟩
    simp [parseLogLine, hne, hbs, hsp]
    intro h0
    obtain ⟨c0, t0, hl, hc0⟩ := logHashStart_zero_head _ k hk h0
    rw [hl]
    simpa using hc0
  | cons r rt =>
    refine ⟨⟨l.take k, (l.drop k).takeWhile (fun c => c ≠ ' '),
            (parse_decorations_and_message r).2,
            (parse_decorations_and_message r).1⟩, ?_, hhash⟩
    simp [parseLogLine, hne, hbs, hsp]
    intro h0
    obtain ⟨c0, t0, hl, hc0⟩ := logHashStart_zero_head _ k hk h0
    rw [hl]
    simpa using hc0

/-- Under a successful parse, every line contributes one commit exactly
when it qualifies (non-empty with a hex digit). -/
theorem parseLogLines_count :
    ∀ (ls : List Str) (cs : List Commit), parseLogLines ls = some cs →
      cs.length = (ls.filter specQual).length := by
  intro ls
  induction ls with
  | nil =>
    intro cs h
    simp [parseLogLines] at h
    simp [← h]
  | cons l ls ih =>
    intro cs h
    by_cases hq : specQual l
    · have hq' : ¬l = [] ∧ l.any isHexDig = true := by
        simpa [specQual, List.isEmpty_iff] using hq
      rcases parseLogLine_hex l hq'.1 hq'.2 with hpl | ⟨c, hpl⟩
      · simp [parseLogLines, hpl] at h
      · simp only [parseLogLines, hpl] at h
        cases hrec : parseLogLines ls with
        | none => rw [hrec] at h; simp at h
        | some cs0 =>
          rw [hrec] at h
          simp only [Option.map_some', Option.some.injEq] at h
          rw [← h]
          simp [List.filter_cons, hq, ih cs0 hrec]
    · have hpl : parseLogLine l = some none := by
        by_cases hemp : l = []
        · rw [hemp]; rfl
        · have : l.any isHexDig = false := by
            by_contra hcon
            have hany : l.any isHexDig = true := by
              cases hb : l.any isHexDig
              · exact absurd hb hcon
              · rfl
            refine hq ?_
            unfold specQual
            rw [hany]
            simp [List.isEmpty_iff, hemp]
          exact parseLogLine_noHex l this
      simp only [parseLogLines, hpl] at h
      simp [List.filter_cons, hq, ih cs h]

/-- On ASCII lines the parse succeeds and the hashes are the spec-side
tokens of the qualifying lines. -/
theorem parseLogLines_ascii :
    ∀ ls : List Str, (∀ l ∈ ls, ∀ c ∈ l, c.utf8Size = 1) →
      ∃ cs, parseLogLines ls = some cs ∧
        cs.map Commit.hash = (ls.filter specQual).map specHash := by
  intro ls
  induction ls with
  | nil => exact fun _ => ⟨[], rfl, rfl⟩
  | cons l ls ih =>
    intro hascii
    have hl := hascii l (by simp)
    obtain ⟨cs, hcs, hmap⟩ := ih (fun l' h' c hc => hascii l' (by simp [h']) c hc)
    by_cases hq : specQual l
    · have hq' : ¬l = [] ∧ l.any isHexDig = true := by
        simpa [specQual, List.isEmpty_iff] using hq
      obtain ⟨c, hpl, hhash⟩ := parseLogLine_ascii l hl hq'.1 hq'.2
      refine ⟨c :: cs, ?_, ?_⟩
      · simp [parseLogLines, hpl, hcs]
      · simp [List.filter_cons, hq, hmap, hhash]
    · have hpl : parseLogLine l = some none := by
        by_cases hemp : l = []
        · rw [hemp]; rfl
        · have : l.any isHexDig = false := by
            by_contra hcon
            have hany : l.any isHexDig = true := by
              cases hb : l.any isHexDig
              · exact absurd hb hcon
              · rfl
            refine hq ?_
            unfold specQual
            rw [hany]
            simp [List.isEmpty_iff, hemp]
          exact parseLogLine_noHex l this
      exact ⟨cs, by simp [parseLogLines, hpl, hcs],
             by simp [List.filter_cons, hq, hmap]⟩

/-- Characters of a split part come from the split string. -/
theorem splitOnChar_mem (sep : Char) :
    ∀ (s part : Str), part ∈ splitOnChar sep s → ∀ c ∈ part, c ∈ s := by
  intro s
  induction s with
  | nil =>
    intro part hp c hc
    simp [splitOnChar] at hp
    subst hp
    simp at hc
  | cons a t ih =>
    intro part hp c hc
    simp only [splitOnChar] at hp
    by_cases ha : a = sep
    · rw [if_pos ha] at hp
      rcases List.mem_cons.mp hp with rfl | hp'
      · simp at hc
      · exact List.mem_cons_of_mem a (ih part hp' c hc)
    · rw [if_neg ha] at hp
      cases hr : splitOnChar sep t with
      | nil =>
        rw [hr] at hp
        have : part = [a] := by simpa using hp
        subst this
        have : c = a := by simpa using hc
        simp [this]
      | cons hh rt =>
        rw [hr] at hp
        rcases List.mem_cons.mp hp with rfl | hp'
        · rcases List.mem_cons.mp hc with rfl | hc'
          · simp
          · have hmem : hh ∈ splitOnChar sep t := by rw [hr]; exact List.mem_cons_self _ _
            exact List.mem_cons_of_mem a (ih hh hmem c hc')
        · have hmem : part ∈ splitOnChar sep t := by
            rw [hr]; exact List.mem_cons_of_mem _ hp'
          exact List.mem_cons_of_mem a (ih part hmem c hc)

/-- Characters of a `rustLines` line come from the original text. -/
theorem rustLines_mem (s l : Str) (hl : l ∈ rustLines s) : ∀ c ∈ l, c ∈ s := by
  intro c hc
  unfold rustLines at hl
  obtain ⟨l0, hl0, rfl⟩ := List.mem_map.mp hl
  have hc0 : c ∈ l0 := by
    by_cases hr : l0.getLast? = some '\r'
    · rw [if_pos hr] at hc
      exact List.mem_of_mem_dropLast hc
    · rwa [if_neg hr] at hc
  have hl0' : l0 ∈ splitOnChar '\n' s := by
    by_cases hlast : (splitOnChar '\n' s).getLast? = some []
    · rw [if_pos hlast] at hl0
      exact List.mem_of_mem_dropLast hl0
    · rwa [if_neg hlast] at hl0
  exact splitOnChar_mem '\n' s l0 hl0' c hc0

/-- C7 counterexample: on the line `é!7 b` the parser succeeds (the
two-byte `é` keeps byte offset 2 on a boundary) but slices at the *char*
index of the first hex digit interpreted as a byte offset, so the
returned hash is `!7` while the claim's token starting at the first hex
digit is `7`. -/
theorem C7_cex :
    (parse_log_output ("é!7 b".data)).map (List.map Commit.hash) ≠
        some (specHashes ("é!7 b".data)) ∧
      (parse_log_output ("é!7 b".data)).map (List.map Commit.hash) =
        some ["!7".data] ∧
      specHashes ("é!7 b".data) = ["7".data] := by
  refine ⟨by decide, by decide, by decide⟩

/-- C7 amended: whenever the log parser returns (does not panic), the
number of commits equals the number of non-empty lines containing an
ASCII hex digit; and on ASCII log text the parser always returns, with
each commit's hash equal to the token starting at the line's first hex
digit and extending to the first following space.  (On non-ASCII lines
the slice offset is a char index taken as a byte offset, so the hash can
start before the first hex digit, as the counterexample shows.) -/
theorem C7_log_count_hash :
    (∀ (s : Str) (cs : List Commit), parse_log_output s = some cs →
      cs.length = specCount s) ∧
    (∀ s : Str, (∀ c ∈ s, c.utf8Size = 1) →
      ∃ cs, parse_log_output s = some cs ∧ cs.map Commit.hash = specHashes s) := by
  constructor
  · intro s cs h
    exact parseLogLines_count (rustLines s) cs h
  · intro s hascii
    exact parseLogLines_ascii (rustLines s)
      (fun l hl c hc => hascii c (rustLines_mem s l hl c hc))

/-- C7 witness: the two-line ASCII log of the repo's own test parses
with the spec-side count and hashes. -/
theorem C7_log_count_hash_witness :
    ∃ cs, parse_log_output ("* abc1234 Initial commit\n* def5678 Second commit".data) =
        some cs ∧
      cs.map Commit.hash =
        specHashes ("* abc1234 Initial commit\n* def5678 Second commit".data) :=
  C7_log_count_hash.2 ("* abc1234 Initial commit\n* def5678 Second commit".data)
    (by decide)
